import Mathlib

/-!
# TSMF PulseAudio playback device (`channels/drdynvc/tsmf/pulse/tsmf_pulse.c`)

A shallow embedding of the device facade of `tsmf_pulse.c`.

The audio server library is an external service.  Every call the code makes
into it is recorded, in order, in a trace of `Call`s; every value the code
reads back from it is taken from a script of replies (`List Int`), one entry
per call whose result the code stores or branches on.  A run whose script
is exhausted while the code needs a reply is cut there: it has not returned
(`ret = none`) and its trace is the calls issued so far.  This is how a
caller blocked forever in `pa_threaded_mainloop_wait` appears in the model.

Diagnostic output (`DEBUG_WARN`, `DEBUG_DVC` and the `pa_context_errno`
calls inside them) is omitted, as are the buffer attributes and flags handed
to `pa_stream_connect_playback`.  The one write outside a field of the
device, the unchecked `strcpy` of a long device name, is `strcpy_device`.
-/

namespace TsmfPulse

/-! ## Handles, calls, runs -/

/-- A pointer handed out by the server library; `0` is `NULL`. -/
abbrev Handle := Int

/-- The calls of `tsmf_pulse.c` into the server library (and `xfree`), with
the handle each one is given. -/
inductive Call where
  | pa_threaded_mainloop_new
  | pa_threaded_mainloop_get_api (m : Handle)
  | pa_threaded_mainloop_lock (m : Handle)
  | pa_threaded_mainloop_unlock (m : Handle)
  | pa_threaded_mainloop_wait (m : Handle)
  | pa_threaded_mainloop_start (m : Handle)
  | pa_threaded_mainloop_stop (m : Handle)
  | pa_threaded_mainloop_free (m : Handle)
  | pa_context_new
  | pa_context_set_state_callback (c : Handle)
  | pa_context_connect (c : Handle)
  | pa_context_get_state (c : Handle)
  | pa_context_disconnect (c : Handle)
  | pa_context_unref (c : Handle)
  | pa_stream_new (c : Handle)
  | pa_stream_set_state_callback (s : Handle)
  | pa_stream_set_write_callback (s : Handle) (cb : Bool)
  | pa_stream_connect_playback (s : Handle)
  | pa_stream_get_state (s : Handle)
  | pa_stream_drain (s : Handle)
  | pa_stream_flush (s : Handle)
  | pa_stream_disconnect (s : Handle)
  | pa_stream_unref (s : Handle)
  | pa_stream_writable_size (s : Handle)
  | pa_stream_write (s : Handle) (src : Nat) (len : Nat)
  | pa_stream_get_latency (s : Handle)
  | pa_operation_get_state (o : Handle)
  | pa_operation_unref (o : Handle)
  | xfree_data
  | xfree_pulse
  deriving DecidableEq, Repr

/-- The outcome of running a piece of the program against a script of
replies: the calls issued, the replies left unread, and the returned value
(`none` when the run was cut before returning). -/
structure Run (α : Type) where
  trace : List Call
  server : List Int
  ret : Option α
  deriving DecidableEq, Repr

/-- A computation that talks to the server: it reads a script of replies. -/
def Sim (α : Type) : Type := List Int → Run α

/-- Return a value without calling the server. -/
def Sim.pure {α : Type} (a : α) : Sim α :=
  fun sv => { trace := [], server := sv, ret := some a }

/-- Sequencing: the second part runs on the replies the first left unread;
a cut run stays cut. -/
def Sim.bind {α β : Type} (x : Sim α) (f : α → Sim β) : Sim β :=
  fun sv =>
    match (x sv).ret with
    | none => { trace := (x sv).trace, server := (x sv).server, ret := none }
    | some a =>
      { trace := (x sv).trace ++ (f a (x sv).server).trace
        server := (f a (x sv).server).server
        ret := (f a (x sv).server).ret }

instance : Monad Sim where
  pure := Sim.pure
  bind := Sim.bind

/-- A call whose result the code does not read. -/
def call (c : Call) : Sim Unit :=
  fun sv => { trace := [c], server := sv, ret := some () }

/-- A call whose result the code reads: the next reply of the script, which
is the C value the call returns. -/
def reply (c : Call) : Sim Int :=
  fun sv =>
    match sv with
    | [] => { trace := [c], server := [], ret := none }
    | r :: rest => { trace := [c], server := rest, ret := some r }

/-- A call that returns a value and fills an out-parameter: the next two
replies of the script. -/
def reply2 (c : Call) : Sim (Int × Int) :=
  fun sv =>
    match sv with
    | r :: out :: rest => { trace := [c], server := rest, ret := some (r, out) }
    | _ => { trace := [c], server := [], ret := none }

/-! ## Machine integers -/

/-- Conversion to a 32-bit `int` (two's complement wrap-around). -/
def toInt32 (x : Int) : Int :=
  if x % 4294967296 < 2147483648 then x % 4294967296 else x % 4294967296 - 4294967296

/-- Conversion to a 64-bit unsigned integer. -/
def toUInt64 (x : Int) : Nat := (x % 18446744073709551616).toNat

/-! ## Constants of the server library -/

def PA_CONTEXT_UNCONNECTED : Int := 0
def PA_CONTEXT_CONNECTING : Int := 1
def PA_CONTEXT_AUTHORIZING : Int := 2
def PA_CONTEXT_SETTING_NAME : Int := 3
def PA_CONTEXT_READY : Int := 4
def PA_CONTEXT_FAILED : Int := 5
def PA_CONTEXT_TERMINATED : Int := 6

/-- The library's `PA_CONTEXT_IS_GOOD`: connecting, authorizing, setting the
name, or ready. -/
def PA_CONTEXT_IS_GOOD (x : Int) : Bool :=
  x == PA_CONTEXT_CONNECTING || x == PA_CONTEXT_AUTHORIZING ||
    x == PA_CONTEXT_SETTING_NAME || x == PA_CONTEXT_READY

def PA_STREAM_UNCONNECTED : Int := 0
def PA_STREAM_CREATING : Int := 1
def PA_STREAM_READY : Int := 2
def PA_STREAM_FAILED : Int := 3
def PA_STREAM_TERMINATED : Int := 4

/-- The library's `PA_STREAM_IS_GOOD`: creating or ready. -/
def PA_STREAM_IS_GOOD (x : Int) : Bool :=
  x == PA_STREAM_CREATING || x == PA_STREAM_READY

def PA_OPERATION_RUNNING : Int := 0
def PA_OPERATION_DONE : Int := 1
def PA_OPERATION_CANCELLED : Int := 2

def PA_SAMPLE_S16LE : Int := 3

/-! ## The device -/

/-- The library's `pa_sample_spec`. -/
structure pa_sample_spec where
  format : Int
  rate : Nat
  channels : Nat
  deriving DecidableEq, Repr

/-- The `TSMFPulseAudioDevice` structure (the `iface` function table is the
set of operations below).  In the source `device` is the buffer
`char device[32]`, followed in memory by the other fields. -/
structure TSMFPulseAudioDevice where
  device : List Char
  mainloop : Handle
  context : Handle
  sample_spec : pa_sample_spec
  stream : Handle
  deriving DecidableEq, Repr

/-- The factory `TSMFAudioDeviceEntry`: `xnew` hands out zeroed memory, so
every handle of a fresh device is `NULL`. -/
def TSMFAudioDeviceEntry : TSMFPulseAudioDevice :=
  { device := [], mainloop := 0, context := 0,
    sample_spec := { format := 0, rate := 0, channels := 0 }, stream := 0 }

/-! ## Connection -/

/-- The `for (;;)` loop of `tsmf_pulse_connect`: read the context state; leave
with it when it is ready or not good; otherwise wait and read again. -/
def tsmf_pulse_connect_loop (pulse : TSMFPulseAudioDevice) : Sim Int
  | [] => { trace := [Call.pa_context_get_state pulse.context], server := [], ret := none }
  | state :: rest =>
    if state = PA_CONTEXT_READY then
      { trace := [Call.pa_context_get_state pulse.context], server := rest, ret := some state }
    else if !PA_CONTEXT_IS_GOOD state then
      { trace := [Call.pa_context_get_state pulse.context], server := rest, ret := some state }
    else
      { trace := Call.pa_context_get_state pulse.context ::
          Call.pa_threaded_mainloop_wait pulse.mainloop ::
          (tsmf_pulse_connect_loop pulse rest).trace
        server := (tsmf_pulse_connect_loop pulse rest).server
        ret := (tsmf_pulse_connect_loop pulse rest).ret }

/-- The function `tsmf_pulse_connect`. -/
def tsmf_pulse_connect (pulse : TSMFPulseAudioDevice) : Sim Bool :=
  if pulse.context = 0 then
    pure false
  else do
    let rc ← reply (Call.pa_context_connect pulse.context)
    if rc ≠ 0 then
      pure false
    else do
      call (Call.pa_threaded_mainloop_lock pulse.mainloop)
      let started ← reply (Call.pa_threaded_mainloop_start pulse.mainloop)
      if started < 0 then do
        call (Call.pa_threaded_mainloop_unlock pulse.mainloop)
        pure false
      else do
        let state ← tsmf_pulse_connect_loop pulse
        call (Call.pa_threaded_mainloop_unlock pulse.mainloop)
        if state = PA_CONTEXT_READY then
          pure true
        else do
          call (Call.pa_context_disconnect pulse.context)
          pure false

/-- The copy `strcpy(pulse->device, device)` into `char device[32]`.  A name
of at most 31 chars fits with its terminator, and the copy changes `device`
only.  A longer name is written past the end of the buffer, over the fields
that follow it (`mainloop`, `context`, `sample_spec`, `stream`); this is
undefined behaviour, and `overflow` stands for the device state the copy
then leaves, whatever it is. -/
def strcpy_device (pulse : TSMFPulseAudioDevice) (name : List Char)
    (overflow : TSMFPulseAudioDevice) : TSMFPulseAudioDevice :=
  if name.length < 32 then { pulse with device := name } else overflow

/-- The function `tsmf_pulse_open`.  The device name is copied when given,
without a length check (`overflow`: see `strcpy_device`). -/
def tsmf_pulse_open (pulse : TSMFPulseAudioDevice) (device : Option (List Char))
    (overflow : TSMFPulseAudioDevice) : Sim (TSMFPulseAudioDevice × Bool) := do
  let pulse1 : TSMFPulseAudioDevice :=
    match device with
    | some name => strcpy_device pulse name overflow
    | none => pulse
  let m ← reply Call.pa_threaded_mainloop_new
  let pulse2 : TSMFPulseAudioDevice := { pulse1 with mainloop := m }
  if m = 0 then
    pure (pulse2, false)
  else do
    call (Call.pa_threaded_mainloop_get_api m)
    let c ← reply Call.pa_context_new
    let pulse3 : TSMFPulseAudioDevice := { pulse2 with context := c }
    if c = 0 then
      pure (pulse3, false)
    else do
      call (Call.pa_context_set_state_callback c)
      let connected ← tsmf_pulse_connect pulse3
      if connected then
        pure (pulse3, false)
      else
        pure (pulse3, true)

/-! ## Stream -/

/-- The `while` loop of `tsmf_pulse_wait_for_operation`: wait as long as the
operation is reported running. -/
def tsmf_pulse_wait_for_operation_loop (pulse : TSMFPulseAudioDevice) (operation : Handle) :
    Sim Unit
  | [] => { trace := [Call.pa_operation_get_state operation], server := [], ret := none }
  | state :: rest =>
    if state = PA_OPERATION_RUNNING then
      { trace := Call.pa_operation_get_state operation ::
          Call.pa_threaded_mainloop_wait pulse.mainloop ::
          (tsmf_pulse_wait_for_operation_loop pulse operation rest).trace
        server := (tsmf_pulse_wait_for_operation_loop pulse operation rest).server
        ret := (tsmf_pulse_wait_for_operation_loop pulse operation rest).ret }
    else
      { trace := [Call.pa_operation_get_state operation], server := rest, ret := some () }

/-- The function `tsmf_pulse_wait_for_operation`. -/
def tsmf_pulse_wait_for_operation (pulse : TSMFPulseAudioDevice) (operation : Handle) :
    Sim Unit :=
  if operation = 0 then
    pure ()
  else do
    tsmf_pulse_wait_for_operation_loop pulse operation
    call (Call.pa_operation_unref operation)

/-- The function `tsmf_pulse_close_stream`. -/
def tsmf_pulse_close_stream (pulse : TSMFPulseAudioDevice) :
    Sim (TSMFPulseAudioDevice × Bool) :=
  if pulse.context = 0 ∨ pulse.stream = 0 then
    pure (pulse, false)
  else do
    call (Call.pa_threaded_mainloop_lock pulse.mainloop)
    call (Call.pa_stream_set_write_callback pulse.stream false)
    let operation ← reply (Call.pa_stream_drain pulse.stream)
    tsmf_pulse_wait_for_operation pulse operation
    call (Call.pa_stream_disconnect pulse.stream)
    call (Call.pa_stream_unref pulse.stream)
    call (Call.pa_threaded_mainloop_unlock pulse.mainloop)
    pure ({ pulse with stream := 0 }, true)

/-- The `for (;;)` loop of `tsmf_pulse_open_stream`: read the stream state;
leave with it when it is ready or not good; otherwise wait and read again. -/
def tsmf_pulse_open_stream_loop (pulse : TSMFPulseAudioDevice) : Sim Int
  | [] => { trace := [Call.pa_stream_get_state pulse.stream], server := [], ret := none }
  | state :: rest =>
    if state = PA_STREAM_READY then
      { trace := [Call.pa_stream_get_state pulse.stream], server := rest, ret := some state }
    else if !PA_STREAM_IS_GOOD state then
      { trace := [Call.pa_stream_get_state pulse.stream], server := rest, ret := some state }
    else
      { trace := Call.pa_stream_get_state pulse.stream ::
          Call.pa_threaded_mainloop_wait pulse.mainloop ::
          (tsmf_pulse_open_stream_loop pulse rest).trace
        server := (tsmf_pulse_open_stream_loop pulse rest).server
        ret := (tsmf_pulse_open_stream_loop pulse rest).ret }

/-- The function `tsmf_pulse_open_stream`. -/
def tsmf_pulse_open_stream (pulse : TSMFPulseAudioDevice) :
    Sim (TSMFPulseAudioDevice × Bool) :=
  if pulse.context = 0 then
    pure (pulse, false)
  else do
    call (Call.pa_threaded_mainloop_lock pulse.mainloop)
    let s ← reply (Call.pa_stream_new pulse.context)
    let pulse1 : TSMFPulseAudioDevice := { pulse with stream := s }
    if s = 0 then do
      call (Call.pa_threaded_mainloop_unlock pulse1.mainloop)
      pure (pulse1, false)
    else do
      call (Call.pa_stream_set_state_callback s)
      call (Call.pa_stream_set_write_callback s true)
      let rc ← reply (Call.pa_stream_connect_playback s)
      if rc < 0 then do
        call (Call.pa_threaded_mainloop_unlock pulse1.mainloop)
        pure (pulse1, false)
      else do
        let state ← tsmf_pulse_open_stream_loop pulse1
        call (Call.pa_threaded_mainloop_unlock pulse1.mainloop)
        if state = PA_STREAM_READY then
          pure (pulse1, true)
        else do
          let closed ← tsmf_pulse_close_stream pulse1
          pure (closed.1, false)

/-- The function `tsmf_pulse_set_format`: the sample format is fixed to
`PA_SAMPLE_S16LE`; `channels` is an 8-bit field of `pa_sample_spec`. -/
def tsmf_pulse_set_format (pulse : TSMFPulseAudioDevice)
    (sample_rate channels bits_per_sample : Nat) : Sim (TSMFPulseAudioDevice × Bool) :=
  tsmf_pulse_open_stream
    { pulse with
      sample_spec := { format := PA_SAMPLE_S16LE, rate := sample_rate, channels := channels % 256 } }

/-! ## Playback -/

/-- The `while (data_size > 0)` loop of `tsmf_pulse_play`, with `src` kept as
the offset into the caller's buffer.  The inner `while (len == 0)` loop is
the branch that waits and asks again with `src` and `data_size` unchanged.
The library returns the writable size as a `size_t`; the code stores it in
the `int len`.  Past the `len < 0` test `len` is positive, so the unsigned
comparison `len > data_size` and the subtraction `data_size -= len` are
exact. -/
def tsmf_pulse_play_loop (pulse : TSMFPulseAudioDevice) : Nat → Nat → Sim Unit
  | src, data_size, sv =>
    if data_size = 0 then
      { trace := [], server := sv, ret := some () }
    else
      match sv with
      | [] => { trace := [Call.pa_stream_writable_size pulse.stream], server := [], ret := none }
      | writable :: rest =>
        if toInt32 writable = 0 then
          { trace := Call.pa_stream_writable_size pulse.stream ::
              Call.pa_threaded_mainloop_wait pulse.mainloop ::
              (tsmf_pulse_play_loop pulse src data_size rest).trace
            server := (tsmf_pulse_play_loop pulse src data_size rest).server
            ret := (tsmf_pulse_play_loop pulse src data_size rest).ret }
        else if toInt32 writable < 0 then
          { trace := [Call.pa_stream_writable_size pulse.stream], server := rest, ret := some () }
        else
          let len : Nat :=
            if (toInt32 writable).toNat > data_size then data_size else (toInt32 writable).toNat
          match rest with
          | [] =>
            { trace := [Call.pa_stream_writable_size pulse.stream,
                Call.pa_stream_write pulse.stream src len]
              server := [], ret := none }
          | ret :: rest1 =>
            if ret < 0 then
              { trace := [Call.pa_stream_writable_size pulse.stream,
                  Call.pa_stream_write pulse.stream src len]
                server := rest1, ret := some () }
            else
              { trace := Call.pa_stream_writable_size pulse.stream ::
                  Call.pa_stream_write pulse.stream src len ::
                  (tsmf_pulse_play_loop pulse (src + len) (data_size - len) rest1).trace
                server := (tsmf_pulse_play_loop pulse (src + len) (data_size - len) rest1).server
                ret := (tsmf_pulse_play_loop pulse (src + len) (data_size - len) rest1).ret }

/-- The function `tsmf_pulse_play`; `data_size` is a `uint32`. -/
def tsmf_pulse_play (pulse : TSMFPulseAudioDevice) (data_size : Nat) : Sim Bool :=
  if pulse.stream ≠ 0 then do
    call (Call.pa_threaded_mainloop_lock pulse.mainloop)
    tsmf_pulse_play_loop pulse 0 data_size
    call (Call.pa_threaded_mainloop_unlock pulse.mainloop)
    call Call.xfree_data
    pure true
  else do
    call Call.xfree_data
    pure true

/-! ## Auxiliary operations -/

/-- The function `tsmf_pulse_get_latency`: the library reports the latency in
microseconds through an out-parameter (a 64-bit `pa_usec_t`); the product
with `10LL` is a 64-bit unsigned product. -/
def tsmf_pulse_get_latency (pulse : TSMFPulseAudioDevice) : Sim Nat :=
  if pulse.stream ≠ 0 then do
    let r ← reply2 (Call.pa_stream_get_latency pulse.stream)
    if r.1 = 0 then
      pure ((toUInt64 r.2 * 10) % 18446744073709551616)
    else
      pure 0
  else
    pure 0

/-- The function `tsmf_pulse_flush`. -/
def tsmf_pulse_flush (pulse : TSMFPulseAudioDevice) : Sim Unit := do
  call (Call.pa_threaded_mainloop_lock pulse.mainloop)
  let operation ← reply (Call.pa_stream_flush pulse.stream)
  tsmf_pulse_wait_for_operation pulse operation
  call (Call.pa_threaded_mainloop_unlock pulse.mainloop)

/-- The function `tsmf_pulse_free`. -/
def tsmf_pulse_free (pulse : TSMFPulseAudioDevice) : Sim Unit := do
  let closed ← tsmf_pulse_close_stream pulse
  let pulse1 := closed.1
  if pulse1.mainloop ≠ 0 then
    call (Call.pa_threaded_mainloop_stop pulse1.mainloop)
  else
    pure ()
  if pulse1.context ≠ 0 then do
    call (Call.pa_context_disconnect pulse1.context)
    call (Call.pa_context_unref pulse1.context)
  else
    pure ()
  if pulse1.mainloop ≠ 0 then
    call (Call.pa_threaded_mainloop_free pulse1.mainloop)
  else
    pure ()
  call Call.xfree_pulse

/-! ## Vocabulary of the properties -/

/-- The state of the event-loop lock (held by the caller or not) after one
more call; `none` when the call breaks the discipline: a lock while held,
an unlock or a wait while not held. -/
def lockStep (held : Bool) : Call → Option Bool
  | Call.pa_threaded_mainloop_lock _ => if held then none else some true
  | Call.pa_threaded_mainloop_unlock _ => if held then some false else none
  | Call.pa_threaded_mainloop_wait _ => if held then some true else none
  | _ => some held

/-- The state of the lock after a trace, `none` when some call of the trace
breaks the discipline. -/
def lockFrom : Bool → List Call → Option Bool
  | held, [] => some held
  | held, c :: tr =>
    match lockStep held c with
    | none => none
    | some h => lockFrom h tr

/-- The number of lock calls in a trace. -/
def countLocks : List Call → Nat
  | [] => 0
  | Call.pa_threaded_mainloop_lock _ :: tr => countLocks tr + 1
  | _ :: tr => countLocks tr

/-- The number of unlock calls in a trace. -/
def countUnlocks : List Call → Nat
  | [] => 0
  | Call.pa_threaded_mainloop_unlock _ :: tr => countUnlocks tr + 1
  | _ :: tr => countUnlocks tr

/-- The buffer offset and length of a write to the stream. -/
def writeOf : Call → Option (Nat × Nat)
  | Call.pa_stream_write _ src len => some (src, len)
  | _ => none

/-- The writes of a trace, in order, as (offset, length). -/
def writes (tr : List Call) : List (Nat × Nat) := tr.filterMap writeOf

/-- Whether a call hands a `NULL` event-loop, connection or stream handle to
the server library. -/
def passesNull : Call → Bool
  | Call.pa_threaded_mainloop_get_api m => m == 0
  | Call.pa_threaded_mainloop_lock m => m == 0
  | Call.pa_threaded_mainloop_unlock m => m == 0
  | Call.pa_threaded_mainloop_wait m => m == 0
  | Call.pa_threaded_mainloop_start m => m == 0
  | Call.pa_threaded_mainloop_stop m => m == 0
  | Call.pa_threaded_mainloop_free m => m == 0
  | Call.pa_context_set_state_callback c => c == 0
  | Call.pa_context_connect c => c == 0
  | Call.pa_context_get_state c => c == 0
  | Call.pa_context_disconnect c => c == 0
  | Call.pa_context_unref c => c == 0
  | Call.pa_stream_new c => c == 0
  | Call.pa_stream_set_state_callback s => s == 0
  | Call.pa_stream_set_write_callback s _ => s == 0
  | Call.pa_stream_connect_playback s => s == 0
  | Call.pa_stream_get_state s => s == 0
  | Call.pa_stream_drain s => s == 0
  | Call.pa_stream_flush s => s == 0
  | Call.pa_stream_disconnect s => s == 0
  | Call.pa_stream_unref s => s == 0
  | Call.pa_stream_writable_size s => s == 0
  | Call.pa_stream_write s _ _ => s == 0
  | Call.pa_stream_get_latency s => s == 0
  | _ => false

/-- One round of the writer loop as the server answers it: `zeros` capacity
replies of 0 (each makes the caller wait), then the capacity `cap`, then the
result `wret` of the write (not negative: the write succeeds). -/
structure Round where
  zeros : Nat
  cap : Nat
  wret : Nat
  deriving DecidableEq, Repr

/-- The script of replies of a list of rounds. -/
def roundsScript : List Round → List Int
  | [] => []
  | r :: rs => List.replicate r.zeros (0 : Int) ++ (r.cap : Int) :: (r.wret : Int) :: roundsScript rs

/-- The capacities reported in a list of rounds. -/
def caps (rs : List Round) : List Nat := rs.map Round.cap

/-- The calls of `zeros` empty capacity replies: a query and a wait each. -/
def waitCycles (pulse : TSMFPulseAudioDevice) : Nat → List Call
  | 0 => []
  | z + 1 =>
    Call.pa_stream_writable_size pulse.stream :: Call.pa_threaded_mainloop_wait pulse.mainloop ::
      waitCycles pulse z

/-- The chunking the specification describes: while bytes remain, write
min(remaining, writable) bytes at the current offset and advance. -/
def chunks : Nat → Nat → List Nat → List (Nat × Nat)
  | _, _, [] => []
  | src, remaining, c :: cs =>
    if remaining = 0 then []
    else (src, min remaining c) :: chunks (src + min remaining c) (remaining - min remaining c) cs

/-- The lock discipline of a run that starts with the lock not held: no call
of its trace breaks the discipline (every wait is made with the lock
held, no lock is taken while held), and when the run has returned the lock
is not held and the unlocks are as many as the locks. -/
def LockDiscipline {α : Type} (run : Run α) : Prop :=
  (lockFrom false run.trace).isSome = true ∧
  (run.ret.isSome = true →
    lockFrom false run.trace = some false ∧ countLocks run.trace = countUnlocks run.trace)

/-- A computation entered with the lock in state `h` never breaks the
discipline, and leaves the lock in state `g` when it returns. -/
def LockOK {α : Type} (h g : Bool) (x : Sim α) : Prop :=
  ∀ sv : List Int,
    (lockFrom h (x sv).trace).isSome = true ∧
    ((x sv).ret.isSome = true → lockFrom h (x sv).trace = some g)

/-- Every value returned by a computation satisfies `P`. -/
def RetSat {α : Type} (x : Sim α) (P : α → Prop) : Prop :=
  ∀ (sv : List Int) (a : α), (x sv).ret = some a → P a

/-- Every call issued by a computation satisfies `P`. -/
def TraceSat {α : Type} (x : Sim α) (P : Call → Prop) : Prop :=
  ∀ (sv : List Int), ∀ c ∈ (x sv).trace, P c

/-- The device states reachable from the factory by any combination of
`open` and `set_format` calls that return, whatever the server replies. -/
inductive Reachable : TSMFPulseAudioDevice → Prop where
  | entry : Reachable TSMFAudioDeviceEntry
  | opened (pulse p : TSMFPulseAudioDevice) (device : Option (List Char))
      (overflow : TSMFPulseAudioDevice) (script : List Int) (b : Bool) : Reachable pulse →
      (tsmf_pulse_open pulse device overflow script).ret = some (p, b) → Reachable p
  | formatted (pulse p : TSMFPulseAudioDevice) (sample_rate channels bits_per_sample : Nat)
      (script : List Int) (b : Bool) : Reachable pulse →
      (tsmf_pulse_set_format pulse sample_rate channels bits_per_sample script).ret = some (p, b) →
      Reachable p

/-- The device states reachable from the factory by `open` and `set_format`
calls that return, when `open` is only called on a device that holds no
connection (it is not called again once it has created one) and only with
no device name or one that fits the 32-byte buffer (at most 31 chars). -/
inductive ReachableOpenOnce : TSMFPulseAudioDevice → Prop where
  | entry : ReachableOpenOnce TSMFAudioDeviceEntry
  | opened (pulse p : TSMFPulseAudioDevice) (device : Option (List Char))
      (overflow : TSMFPulseAudioDevice) (script : List Int) (b : Bool) :
      ReachableOpenOnce pulse → pulse.context = 0 →
      (∀ name : List Char, device = some name → name.length < 32) →
      (tsmf_pulse_open pulse device overflow script).ret = some (p, b) → ReachableOpenOnce p
  | formatted (pulse p : TSMFPulseAudioDevice) (sample_rate channels bits_per_sample : Nat)
      (script : List Int) (b : Bool) : ReachableOpenOnce pulse →
      (tsmf_pulse_set_format pulse sample_rate channels bits_per_sample script).ret = some (p, b) →
      ReachableOpenOnce p

/-- The calls made while waiting for the drain operation. -/
def isDrainWait : Call → Bool
  | Call.pa_operation_get_state _ => true
  | Call.pa_threaded_mainloop_wait _ => true
  | Call.pa_operation_unref _ => true
  | _ => false

/-- The teardown order of `free` as the specification states it: close the
stream (drain, with the calls `ws` of waiting for it, disconnect, release),
stop the event loop, disconnect and release the connection, release the
event loop, release the device; each step present when its handle is. -/
def teardownOrder (pulse : TSMFPulseAudioDevice) (ws : List Call) : List Call :=
  (if pulse.stream ≠ 0 then
      [Call.pa_threaded_mainloop_lock pulse.mainloop,
        Call.pa_stream_set_write_callback pulse.stream false,
        Call.pa_stream_drain pulse.stream] ++ ws ++
      [Call.pa_stream_disconnect pulse.stream, Call.pa_stream_unref pulse.stream,
        Call.pa_threaded_mainloop_unlock pulse.mainloop]
    else []) ++
  (if pulse.mainloop ≠ 0 then [Call.pa_threaded_mainloop_stop pulse.mainloop] else []) ++
  (if pulse.context ≠ 0 then
      [Call.pa_context_disconnect pulse.context, Call.pa_context_unref pulse.context]
    else []) ++
  (if pulse.mainloop ≠ 0 then [Call.pa_threaded_mainloop_free pulse.mainloop] else []) ++
  [Call.xfree_pulse]

/-- A device after a successful connection and a `set_format` that opened
stream 3. -/
def formattedDevice : TSMFPulseAudioDevice :=
  { device := [], mainloop := 1, context := 2, stream := 3,
    sample_spec := { format := PA_SAMPLE_S16LE, rate := 44100, channels := 2 } }

/-- A device whose second `open` failed to create an event loop after a first
`open` and a `set_format`: connection and stream present, event loop `NULL`. -/
def reopenedDevice : TSMFPulseAudioDevice :=
  { device := [], mainloop := 0, context := 2, stream := 3,
    sample_spec := { format := PA_SAMPLE_S16LE, rate := 44100, channels := 2 } }

/-- A device name that fits the buffer. -/
def shortName : List Char := ['h', 'd', 'm', 'i']

/-- The device after `open` with `shortName` has connected and `set_format`
has opened stream 3. -/
def namedDevice : TSMFPulseAudioDevice :=
  { device := shortName, mainloop := 1, context := 2, stream := 3,
    sample_spec := { format := PA_SAMPLE_S16LE, rate := 44100, channels := 2 } }

/-- The name of 71 chars `a`: with its terminator, 72 bytes. -/
def longName : List Char := List.replicate 71 'a'

/-- The device state that copying `longName` into a fresh device leaves on
the usual 64-bit little-endian layout (`device` at bytes 0 to 31, `mainloop`
at 32, `context` at 40, `sample_spec` at 48 with `format`, `rate` and
`channels` at 48, 52 and 56, `stream` at 64): every byte up to 70 is the
char `a` (0x61) and byte 71 is the terminator. -/
def longNameOverflow : TSMFPulseAudioDevice :=
  { device := List.replicate 32 'a', mainloop := 7016996765293437281,
    context := 7016996765293437281,
    sample_spec := { format := 1633771873, rate := 1633771873, channels := 97 },
    stream := 27410143614427489 }

/-- The device after `open` with `longName` on a fresh device, when no event
loop can be created: the overwritten connection and stream handles are
not `NULL`, the event loop is. -/
def overflowedDevice : TSMFPulseAudioDevice :=
  { longNameOverflow with mainloop := 0 }

/-- A device after a successful connection: event loop and connection
present, no stream. -/
def connectedDevice : TSMFPulseAudioDevice :=
  { TSMFAudioDeviceEntry with mainloop := 1, context := 2 }

/-- A device with an open stream. -/
def playingDevice : TSMFPulseAudioDevice :=
  { TSMFAudioDeviceEntry with mainloop := 1, context := 2, stream := 3 }

/-! ## Evaluation lemmas -/

theorem bind_apply {α β : Type} (x : Sim α) (f : α → Sim β) (sv : List Int) :
    (x >>= f) sv = Sim.bind x f sv := rfl

theorem pure_apply {α : Type} (a : α) (sv : List Int) :
    (pure a : Sim α) sv = { trace := [], server := sv, ret := some a } := rfl

theorem toInt32_of_lt (c : Nat) (h : c < 2147483648) : toInt32 (c : Int) = c := by
  unfold toInt32
  have e : ((c : Int) % 4294967296) = c := Int.emod_eq_of_lt (by omega) (by omega)
  rw [e]
  simp
  omega

/-! ## The writer loop -/

theorem play_loop_zero (pulse : TSMFPulseAudioDevice) (src : Nat) (sv : List Int) :
    tsmf_pulse_play_loop pulse src 0 sv = { trace := [], server := sv, ret := some () } := by
  unfold tsmf_pulse_play_loop
  simp

theorem play_loop_wait (pulse : TSMFPulseAudioDevice) (src n : Nat) (hn : n ≠ 0)
    (z : Nat) (t : List Int) :
    tsmf_pulse_play_loop pulse src n (List.replicate z (0 : Int) ++ t) =
      { trace := waitCycles pulse z ++ (tsmf_pulse_play_loop pulse src n t).trace
        server := (tsmf_pulse_play_loop pulse src n t).server
        ret := (tsmf_pulse_play_loop pulse src n t).ret } := by
  induction z with
  | zero => simp [waitCycles]
  | succ z ih =>
    rw [List.replicate_succ, List.cons_append, tsmf_pulse_play_loop]
    simp [hn, toInt32, ih, waitCycles]

theorem play_loop_write (pulse : TSMFPulseAudioDevice) (src n : Nat) (hn : n ≠ 0)
    (c w : Nat) (hc : 0 < c) (hc2 : c < 2147483648) (t : List Int) :
    tsmf_pulse_play_loop pulse src n ((c : Int) :: (w : Int) :: t) =
      { trace := Call.pa_stream_writable_size pulse.stream ::
          Call.pa_stream_write pulse.stream src (min n c) ::
          (tsmf_pulse_play_loop pulse (src + min n c) (n - min n c) t).trace
        server := (tsmf_pulse_play_loop pulse (src + min n c) (n - min n c) t).server
        ret := (tsmf_pulse_play_loop pulse (src + min n c) (n - min n c) t).ret } := by
  rw [tsmf_pulse_play_loop]
  have h1 : ¬ ((c : Int) = 0) := by omega
  have h3 : ¬ ((w : Int) < 0) := by omega
  have h4 : (if n < c then n else c) = min n c := by
    by_cases h : n < c
    · simp [h]; omega
    · simp [h]; omega
  simp [hn, toInt32_of_lt c hc2, h1, h3, h4]

theorem play_loop_error (pulse : TSMFPulseAudioDevice) (src n : Nat) (hn : n ≠ 0)
    (e : Int) (he : toInt32 e < 0) (t : List Int) :
    tsmf_pulse_play_loop pulse src n (e :: t) =
      { trace := [Call.pa_stream_writable_size pulse.stream], server := t, ret := some () } := by
  rw [tsmf_pulse_play_loop]
  have h1 : ¬ (toInt32 e = 0) := by omega
  simp [hn, h1, he]

theorem play_loop_write_fails (pulse : TSMFPulseAudioDevice) (src n : Nat) (hn : n ≠ 0)
    (c w : Int) (hc : 0 < toInt32 c) (hw : w < 0) (t : List Int) :
    tsmf_pulse_play_loop pulse src n (c :: w :: t) =
      { trace := [Call.pa_stream_writable_size pulse.stream,
          Call.pa_stream_write pulse.stream src
            (if (toInt32 c).toNat > n then n else (toInt32 c).toNat)]
        server := t, ret := some () } := by
  rw [tsmf_pulse_play_loop]
  have h1 : ¬ (toInt32 c = 0) := by omega
  have h2 : ¬ (toInt32 c < 0) := by omega
  simp [hn, h1, h2, hw]

theorem writes_waitCycles (pulse : TSMFPulseAudioDevice) (z : Nat) (tr : List Call) :
    writes (waitCycles pulse z ++ tr) = writes tr := by
  induction z with
  | zero => simp [waitCycles]
  | succ z ih =>
    simp only [waitCycles, List.cons_append]
    simpa [writes, List.filterMap_cons, writeOf] using ih

/-- Rounds that succeed and cover the buffer: the loop returns, and its writes
are the chunking of the buffer by the reported capacities. -/
theorem play_loop_rounds (pulse : TSMFPulseAudioDevice) (rs : List Round) :
    ∀ (src n : Nat) (t : List Int),
      (∀ r ∈ rs, 0 < r.cap ∧ r.cap < 2147483648) → n ≤ (caps rs).sum →
      (tsmf_pulse_play_loop pulse src n (roundsScript rs ++ t)).ret = some () ∧
      writes (tsmf_pulse_play_loop pulse src n (roundsScript rs ++ t)).trace =
        chunks src n (caps rs) := by
  induction rs with
  | nil =>
    intro src n t _ hn
    have h0 : n = 0 := by simpa [caps] using hn
    subst h0
    simp [play_loop_zero, writes, chunks, caps]
  | cons r rs ih =>
    intro src n t hgood hn
    by_cases h0 : n = 0
    · subst h0
      simp [play_loop_zero, writes, chunks, caps]
    · have hr := hgood r (List.mem_cons_self r rs)
      have hrest : ∀ q ∈ rs, 0 < q.cap ∧ q.cap < 2147483648 :=
        fun q hq => hgood q (List.mem_cons_of_mem r hq)
      have hsum : n - min n r.cap ≤ (caps rs).sum := by
        simp only [caps, List.map_cons, List.sum_cons] at hn ⊢
        omega
      have step := ih (src + min n r.cap) (n - min n r.cap) t hrest hsum
      have e : roundsScript (r :: rs) ++ t =
          List.replicate r.zeros (0 : Int) ++
            ((r.cap : Int) :: (r.wret : Int) :: (roundsScript rs ++ t)) := by
        simp [roundsScript]
      rw [e, play_loop_wait pulse src n h0, play_loop_write pulse src n h0 _ _ hr.1 hr.2]
      refine ⟨step.1, ?_⟩
      simp only [writes_waitCycles]
      have c1 : chunks src n (caps (r :: rs)) =
          (src, min n r.cap) ::
            chunks (src + min n r.cap) (n - min n r.cap) (caps rs) := by
        simp [caps, chunks, h0]
      rw [c1, ← step.2]
      simp [writes, List.filterMap_cons, writeOf]

/-- Rounds that succeed without covering the buffer: the loop goes on with
what follows them. -/
theorem play_loop_rounds_lt (pulse : TSMFPulseAudioDevice) (rs : List Round) :
    ∀ (src n : Nat) (t : List Int),
      (∀ r ∈ rs, 0 < r.cap ∧ r.cap < 2147483648) → (caps rs).sum < n →
      ∃ pre : List Call,
        tsmf_pulse_play_loop pulse src n (roundsScript rs ++ t) =
          { trace := pre ++
              (tsmf_pulse_play_loop pulse (src + (caps rs).sum) (n - (caps rs).sum) t).trace
            server :=
              (tsmf_pulse_play_loop pulse (src + (caps rs).sum) (n - (caps rs).sum) t).server
            ret :=
              (tsmf_pulse_play_loop pulse (src + (caps rs).sum) (n - (caps rs).sum) t).ret } := by
  induction rs with
  | nil =>
    intro src n t _ _
    exact ⟨[], by simp [roundsScript, caps]⟩
  | cons r rs ih =>
    intro src n t hgood hn
    have hr := hgood r (List.mem_cons_self r rs)
    have hrest : ∀ q ∈ rs, 0 < q.cap ∧ q.cap < 2147483648 :=
      fun q hq => hgood q (List.mem_cons_of_mem r hq)
    have hs : (caps (r :: rs)).sum = r.cap + (caps rs).sum := by simp [caps]
    have h0 : n ≠ 0 := by omega
    have hmin : min n r.cap = r.cap := by omega
    have hsum : (caps rs).sum < n - r.cap := by omega
    obtain ⟨pre, hpre⟩ := ih (src + r.cap) (n - r.cap) t hrest hsum
    have e : roundsScript (r :: rs) ++ t =
        List.replicate r.zeros (0 : Int) ++
          ((r.cap : Int) :: (r.wret : Int) :: (roundsScript rs ++ t)) := by
      simp [roundsScript]
    refine ⟨waitCycles pulse r.zeros ++ Call.pa_stream_writable_size pulse.stream ::
      Call.pa_stream_write pulse.stream src r.cap :: pre, ?_⟩
    rw [e, play_loop_wait pulse src n h0, play_loop_write pulse src n h0 _ _ hr.1 hr.2, hmin, hpre,
      hs]
    have a1 : src + r.cap + (caps rs).sum = src + (r.cap + (caps rs).sum) := by omega
    have a2 : n - r.cap - (caps rs).sum = n - (r.cap + (caps rs).sum) := by omega
    simp [a1, a2]

theorem chunks_sum (cs : List Nat) :
    ∀ (src n : Nat), n ≤ cs.sum → ((chunks src n cs).map Prod.snd).sum = n := by
  induction cs with
  | nil => intro src n hn; simp at hn; simp [chunks, hn]
  | cons c cs ih =>
    intro src n hn
    by_cases h0 : n = 0
    · simp [chunks, h0]
    · have hle : n - min n c ≤ cs.sum := by
        simp only [List.sum_cons] at hn
        omega
      simp only [chunks, h0, if_false, List.map_cons, List.sum_cons, ih _ _ hle]
      omega

theorem chunks_get (cs : List Nat) :
    ∀ (src n k off len : Nat), (chunks src n cs)[k]? = some (off, len) →
      off = src + (((chunks src n cs).take k).map Prod.snd).sum ∧
      len = min (n - (off - src)) (cs.getD k 0) := by
  induction cs with
  | nil => intro src n k off len h; simp [chunks] at h
  | cons c cs ih =>
    intro src n k off len h
    by_cases h0 : n = 0
    · simp [chunks, h0] at h
    · simp only [chunks, h0, if_false] at h ⊢
      cases k with
      | zero =>
        simp at h
        obtain ⟨h1, h2⟩ := h
        subst h1
        subst h2
        simp
      | succ k =>
        simp only [List.getElem?_cons_succ] at h
        have step := ih _ _ _ _ _ h
        simp only [List.take_succ_cons, List.map_cons, List.sum_cons, List.getD_cons_succ]
        constructor
        · omega
        · rw [step.2]
          congr 1
          omega

/-- The run of `tsmf_pulse_play` on a device with a stream, in terms of the
run of its loop. -/
theorem play_eq (pulse : TSMFPulseAudioDevice) (hs : pulse.stream ≠ 0) (n : Nat)
    (sv : List Int) :
    tsmf_pulse_play pulse n sv =
      match (tsmf_pulse_play_loop pulse 0 n sv).ret with
      | none =>
        { trace := Call.pa_threaded_mainloop_lock pulse.mainloop ::
            (tsmf_pulse_play_loop pulse 0 n sv).trace
          server := (tsmf_pulse_play_loop pulse 0 n sv).server, ret := none }
      | some _ =>
        { trace := Call.pa_threaded_mainloop_lock pulse.mainloop ::
            ((tsmf_pulse_play_loop pulse 0 n sv).trace ++
              [Call.pa_threaded_mainloop_unlock pulse.mainloop, Call.xfree_data])
          server := (tsmf_pulse_play_loop pulse 0 n sv).server, ret := some true } := by
  simp only [tsmf_pulse_play, hs, ne_eq, not_false_eq_true, if_true, bind_apply, Sim.bind, call,
    pure_apply]
  cases h : (tsmf_pulse_play_loop pulse 0 n sv).ret <;> simp

theorem play_no_stream (pulse : TSMFPulseAudioDevice) (hs : pulse.stream = 0) (n : Nat)
    (sv : List Int) :
    tsmf_pulse_play pulse n sv = { trace := [Call.xfree_data], server := sv, ret := some true } := by
  simp [tsmf_pulse_play, hs, bind_apply, Sim.bind, call, pure_apply]

/-- The loop never releases the buffer. -/
theorem play_loop_no_xfree (pulse : TSMFPulseAudioDevice) :
    ∀ (k : Nat) (sv : List Int), sv.length ≤ k → ∀ (src n : Nat),
      Call.xfree_data ∉ (tsmf_pulse_play_loop pulse src n sv).trace := by
  intro k
  induction k with
  | zero =>
    intro sv hk src n
    have : sv = [] := List.length_eq_zero.mp (by omega)
    subst this
    rw [tsmf_pulse_play_loop]
    by_cases h0 : n = 0 <;> simp [h0]
  | succ k ih =>
    intro sv hk src n
    by_cases h0 : n = 0
    · subst h0
      simp [play_loop_zero]
    · rcases sv with _ | ⟨w, rest⟩
      · rw [tsmf_pulse_play_loop]
        simp [h0]
      · have hrest : rest.length ≤ k := by simpa using hk
        by_cases h1 : toInt32 w = 0
        · rw [tsmf_pulse_play_loop]
          simp [h0, h1, ih rest hrest]
        · by_cases h2 : toInt32 w < 0
          · rw [tsmf_pulse_play_loop]
            simp [h0, h1, h2]
          · rcases rest with _ | ⟨ret, rest1⟩
            · rw [tsmf_pulse_play_loop]
              simp [h0, h1, h2]
            · have hrest1 : rest1.length ≤ k := by
                simp at hrest
                omega
              rw [tsmf_pulse_play_loop]
              by_cases h3 : ret < 0
              · simp [h0, h1, h2, h3]
              · simp [h0, h1, h2, h3, ih rest1 hrest1]


/-! ## Claims about `play` -/

/-- C2, counterexample: the capacity reply 2^31 is not the error value
`(size_t) -1`, yet stored in the `int len` it is negative: `play` with one
byte to write returns without any write, so the lengths written sum to 0,
not to `data_size`. -/
theorem tsmf_pulse_play_capacity_above_int_max :
    (2147483648 : Int) % 18446744073709551616 ≠ 18446744073709551615 ∧
    (tsmf_pulse_play playingDevice 1 [2147483648]).ret = some true ∧
    writes (tsmf_pulse_play playingDevice 1 [2147483648]).trace = [] ∧
    ((writes (tsmf_pulse_play playingDevice 1 [2147483648]).trace).map Prod.snd).sum ≠ 1 := by
  decide

/-- C2, amended: on a device with an open stream, when every reported
capacity is positive and at most `INT_MAX`, every write succeeds and the
capacities cover the buffer, `play` returns and its writes have lengths that
sum to exactly `data_size`; the k-th write starts at the offset equal to the
sum of the previous lengths and has length min(remaining, k-th capacity). -/
theorem tsmf_pulse_play_writes_whole_buffer (pulse : TSMFPulseAudioDevice) (data_size : Nat)
    (rs : List Round) (rest : List Int) (hs : pulse.stream ≠ 0)
    (hgood : ∀ r ∈ rs, 0 < r.cap ∧ r.cap < 2147483648) (hcover : data_size ≤ (caps rs).sum) :
    (tsmf_pulse_play pulse data_size (roundsScript rs ++ rest)).ret = some true ∧
    ((writes (tsmf_pulse_play pulse data_size (roundsScript rs ++ rest)).trace).map
      Prod.snd).sum = data_size ∧
    ∀ (k off len : Nat),
      (writes (tsmf_pulse_play pulse data_size (roundsScript rs ++ rest)).trace)[k]? =
        some (off, len) →
      off = (((writes (tsmf_pulse_play pulse data_size (roundsScript rs ++ rest)).trace).take
        k).map Prod.snd).sum ∧
      len = min (data_size - off) ((caps rs).getD k 0) := by
  have hloop := play_loop_rounds pulse rs 0 data_size rest hgood hcover
  have hw : writes (tsmf_pulse_play pulse data_size (roundsScript rs ++ rest)).trace =
      chunks 0 data_size (caps rs) := by
    rw [play_eq pulse hs, hloop.1]
    simp only
    rw [← hloop.2]
    simp [writes, List.filterMap_cons, List.filterMap_append, writeOf]
  refine ⟨?_, ?_, ?_⟩
  · rw [play_eq pulse hs, hloop.1]
  · rw [hw]
    exact chunks_sum (caps rs) 0 data_size hcover
  · intro k off len hk
    rw [hw] at hk ⊢
    have h := chunks_get (caps rs) 0 data_size k off len hk
    simpa using h

/-- C2, witness: ten bytes against the capacities 4 (after one wait) and 100. -/
theorem tsmf_pulse_play_writes_whole_buffer_witness :
    (tsmf_pulse_play playingDevice 10
      (roundsScript [{ zeros := 1, cap := 4, wret := 0 }, { zeros := 0, cap := 100, wret := 0 }]
        ++ [])).ret = some true ∧
    ((writes (tsmf_pulse_play playingDevice 10
      (roundsScript [{ zeros := 1, cap := 4, wret := 0 }, { zeros := 0, cap := 100, wret := 0 }]
        ++ [])).trace).map Prod.snd).sum = 10 ∧
    ∀ (k off len : Nat),
      (writes (tsmf_pulse_play playingDevice 10
        (roundsScript [{ zeros := 1, cap := 4, wret := 0 }, { zeros := 0, cap := 100, wret := 0 }]
          ++ [])).trace)[k]? = some (off, len) →
      off = (((writes (tsmf_pulse_play playingDevice 10
        (roundsScript [{ zeros := 1, cap := 4, wret := 0 }, { zeros := 0, cap := 100, wret := 0 }]
          ++ [])).trace).take k).map Prod.snd).sum ∧
      len = min (10 - off)
        ((caps [{ zeros := 1, cap := 4, wret := 0 }, { zeros := 0, cap := 100, wret := 0 }]).getD
          k 0) :=
  tsmf_pulse_play_writes_whole_buffer playingDevice 10
    [{ zeros := 1, cap := 4, wret := 0 }, { zeros := 0, cap := 100, wret := 0 }] []
    (by decide) (by decide) (by decide)

/-- A capacity query that reports an error before the whole buffer has been
written: the run of `play`. -/
theorem play_capacity_error (pulse : TSMFPulseAudioDevice) (data_size : Nat) (rs : List Round)
    (z : Nat) (e : Int) (rest : List Int) (hs : pulse.stream ≠ 0)
    (hgood : ∀ r ∈ rs, 0 < r.cap ∧ r.cap < 2147483648) (hlt : (caps rs).sum < data_size)
    (he : toInt32 e < 0) :
    (tsmf_pulse_play pulse data_size
      (roundsScript rs ++ (List.replicate z (0 : Int) ++ e :: rest))).ret = some true ∧
    ∃ pre : List Call,
      (tsmf_pulse_play pulse data_size
        (roundsScript rs ++ (List.replicate z (0 : Int) ++ e :: rest))).trace =
        pre ++ [Call.pa_stream_writable_size pulse.stream,
          Call.pa_threaded_mainloop_unlock pulse.mainloop, Call.xfree_data] := by
  obtain ⟨pre, hpre⟩ := play_loop_rounds_lt pulse rs 0 data_size
    (List.replicate z (0 : Int) ++ e :: rest) hgood hlt
  have hn : data_size - (caps rs).sum ≠ 0 := by omega
  rw [play_loop_wait pulse _ _ hn, play_loop_error pulse _ _ hn e he] at hpre
  rw [play_eq pulse hs, hpre]
  refine ⟨rfl, Call.pa_threaded_mainloop_lock pulse.mainloop :: (pre ++ waitCycles pulse z), ?_⟩
  simp

/-- A write that fails before the whole buffer has been written: the run of
`play`. -/
theorem play_write_failure (pulse : TSMFPulseAudioDevice) (data_size : Nat) (rs : List Round)
    (z : Nat) (c w : Int) (rest : List Int) (hs : pulse.stream ≠ 0)
    (hgood : ∀ r ∈ rs, 0 < r.cap ∧ r.cap < 2147483648) (hlt : (caps rs).sum < data_size)
    (hc : 0 < toInt32 c) (hw : w < 0) :
    (tsmf_pulse_play pulse data_size
      (roundsScript rs ++ (List.replicate z (0 : Int) ++ c :: w :: rest))).ret = some true ∧
    ∃ (pre : List Call) (off len : Nat),
      (tsmf_pulse_play pulse data_size
        (roundsScript rs ++ (List.replicate z (0 : Int) ++ c :: w :: rest))).trace =
        pre ++ [Call.pa_stream_write pulse.stream off len,
          Call.pa_threaded_mainloop_unlock pulse.mainloop, Call.xfree_data] := by
  obtain ⟨pre, hpre⟩ := play_loop_rounds_lt pulse rs 0 data_size
    (List.replicate z (0 : Int) ++ c :: w :: rest) hgood hlt
  have hn : data_size - (caps rs).sum ≠ 0 := by omega
  rw [play_loop_wait pulse _ _ hn, play_loop_write_fails pulse _ _ hn c w hc hw] at hpre
  rw [play_eq pulse hs, hpre]
  refine ⟨rfl, Call.pa_threaded_mainloop_lock pulse.mainloop ::
    (pre ++ waitCycles pulse z ++ [Call.pa_stream_writable_size pulse.stream]),
    0 + (caps rs).sum,
    (if (toInt32 c).toNat > data_size - (caps rs).sum then data_size - (caps rs).sum
      else (toInt32 c).toNat), ?_⟩
  simp

/-- C3, counterexample: with four bytes to write, a capacity query that
reports the error value, and a write that fails, both leave the buffer
unwritten, and `play` returns success (True), not failure. -/
theorem tsmf_pulse_play_error_returns_true :
    toInt32 (-1) < 0 ∧
    (tsmf_pulse_play playingDevice 4 [-1]).ret = some true ∧
    writes (tsmf_pulse_play playingDevice 4 [-1]).trace = [] ∧
    (tsmf_pulse_play playingDevice 4 [2, -1]).ret = some true ∧
    writes (tsmf_pulse_play playingDevice 4 [2, -1]).trace = [(0, 2)] := by
  decide

/-- C3, amended: `play` never reports failure.  No run of it returns False;
when the capacity query reports an error, or a write fails, before the whole
buffer has been written, that query or write is the last call on the stream:
`play` then unlocks, releases the buffer and returns success (True). -/
theorem tsmf_pulse_play_never_fails (pulse : TSMFPulseAudioDevice) (data_size : Nat) :
    (∀ script : List Int, (tsmf_pulse_play pulse data_size script).ret ≠ some false) ∧
    (∀ (rs : List Round) (z : Nat) (e : Int) (rest : List Int), pulse.stream ≠ 0 →
      (∀ r ∈ rs, 0 < r.cap ∧ r.cap < 2147483648) → (caps rs).sum < data_size → toInt32 e < 0 →
      (tsmf_pulse_play pulse data_size
        (roundsScript rs ++ (List.replicate z (0 : Int) ++ e :: rest))).ret = some true ∧
      ∃ pre : List Call,
        (tsmf_pulse_play pulse data_size
          (roundsScript rs ++ (List.replicate z (0 : Int) ++ e :: rest))).trace =
          pre ++ [Call.pa_stream_writable_size pulse.stream,
            Call.pa_threaded_mainloop_unlock pulse.mainloop, Call.xfree_data]) ∧
    (∀ (rs : List Round) (z : Nat) (c w : Int) (rest : List Int), pulse.stream ≠ 0 →
      (∀ r ∈ rs, 0 < r.cap ∧ r.cap < 2147483648) → (caps rs).sum < data_size →
      0 < toInt32 c → w < 0 →
      (tsmf_pulse_play pulse data_size
        (roundsScript rs ++ (List.replicate z (0 : Int) ++ c :: w :: rest))).ret = some true ∧
      ∃ (pre : List Call) (off len : Nat),
        (tsmf_pulse_play pulse data_size
          (roundsScript rs ++ (List.replicate z (0 : Int) ++ c :: w :: rest))).trace =
          pre ++ [Call.pa_stream_write pulse.stream off len,
            Call.pa_threaded_mainloop_unlock pulse.mainloop, Call.xfree_data]) := by
  refine ⟨?_, ?_, ?_⟩
  · intro script
    by_cases hs : pulse.stream = 0
    · simp [play_no_stream pulse hs]
    · rw [play_eq pulse hs]
      cases (tsmf_pulse_play_loop pulse 0 data_size script).ret <;> simp
  · intro rs z e rest hs hgood hlt he
    exact play_capacity_error pulse data_size rs z e rest hs hgood hlt he
  · intro rs z c w rest hs hgood hlt hc hw
    exact play_write_failure pulse data_size rs z c w rest hs hgood hlt hc hw

/-- C3, witness: after one successful write of 4 bytes out of 10, the
capacity query reports the error value. -/
theorem tsmf_pulse_play_never_fails_witness :
    (tsmf_pulse_play playingDevice 10
      (roundsScript [{ zeros := 0, cap := 4, wret := 0 }] ++
        (List.replicate 1 (0 : Int) ++ (-1) :: []))).ret = some true ∧
    ∃ pre : List Call,
      (tsmf_pulse_play playingDevice 10
        (roundsScript [{ zeros := 0, cap := 4, wret := 0 }] ++
          (List.replicate 1 (0 : Int) ++ (-1) :: []))).trace =
        pre ++ [Call.pa_stream_writable_size playingDevice.stream,
          Call.pa_threaded_mainloop_unlock playingDevice.mainloop, Call.xfree_data] :=
  (tsmf_pulse_play_never_fails playingDevice 10).2.1 [{ zeros := 0, cap := 4, wret := 0 }] 1 (-1) []
    (by decide) (by decide) (by decide) (by decide)

/-- C8: every run of `play` either returns success with the buffer released
exactly once, as its last call (so after the last write), or is cut inside
the stream loop with the buffer not released.  Without a stream the release
is its only call.  With `data_size = 0` it returns success with no capacity
query, no write and no wait.  It returns whenever the capacities reported
cover the buffer, a capacity query reports an error, or a write fails. -/
theorem tsmf_pulse_play_releases_buffer (pulse : TSMFPulseAudioDevice) (data_size : Nat) :
    (∀ script : List Int,
      ((tsmf_pulse_play pulse data_size script).ret = some true ∧
        ∃ pre : List Call, (tsmf_pulse_play pulse data_size script).trace =
          pre ++ [Call.xfree_data] ∧ Call.xfree_data ∉ pre) ∨
      ((tsmf_pulse_play pulse data_size script).ret = none ∧ pulse.stream ≠ 0 ∧
        data_size ≠ 0 ∧ Call.xfree_data ∉ (tsmf_pulse_play pulse data_size script).trace)) ∧
    (pulse.stream = 0 → ∀ script : List Int,
      tsmf_pulse_play pulse data_size script =
        { trace := [Call.xfree_data], server := script, ret := some true }) ∧
    (pulse.stream ≠ 0 → ∀ script : List Int,
      tsmf_pulse_play pulse 0 script =
        { trace := [Call.pa_threaded_mainloop_lock pulse.mainloop,
            Call.pa_threaded_mainloop_unlock pulse.mainloop, Call.xfree_data]
          server := script, ret := some true }) ∧
    (∀ (rs : List Round) (rest : List Int), (∀ r ∈ rs, 0 < r.cap ∧ r.cap < 2147483648) →
      data_size ≤ (caps rs).sum →
      (tsmf_pulse_play pulse data_size (roundsScript rs ++ rest)).ret = some true) ∧
    (∀ (rs : List Round) (z : Nat) (e : Int) (rest : List Int),
      (∀ r ∈ rs, 0 < r.cap ∧ r.cap < 2147483648) → (caps rs).sum < data_size → toInt32 e < 0 →
      (tsmf_pulse_play pulse data_size
        (roundsScript rs ++ (List.replicate z (0 : Int) ++ e :: rest))).ret = some true) ∧
    (∀ (rs : List Round) (z : Nat) (c w : Int) (rest : List Int),
      (∀ r ∈ rs, 0 < r.cap ∧ r.cap < 2147483648) → (caps rs).sum < data_size →
      0 < toInt32 c → w < 0 →
      (tsmf_pulse_play pulse data_size
        (roundsScript rs ++ (List.replicate z (0 : Int) ++ c :: w :: rest))).ret = some true) := by
  refine ⟨?_, ?_, ?_, ?_, ?_, ?_⟩
  · intro script
    by_cases hs : pulse.stream = 0
    · left
      rw [play_no_stream pulse hs]
      exact ⟨rfl, [], rfl, by simp⟩
    · have hno := play_loop_no_xfree pulse script.length script (Nat.le_refl _) 0 data_size
      rw [play_eq pulse hs]
      cases h : (tsmf_pulse_play_loop pulse 0 data_size script).ret with
      | none =>
        right
        refine ⟨rfl, hs, ?_, ?_⟩
        · intro h0
          subst h0
          rw [play_loop_zero] at h
          cases h
        · simpa using hno
      | some u =>
        left
        refine ⟨rfl, Call.pa_threaded_mainloop_lock pulse.mainloop ::
          ((tsmf_pulse_play_loop pulse 0 data_size script).trace ++
            [Call.pa_threaded_mainloop_unlock pulse.mainloop]), ?_, ?_⟩
        · simp
        · simpa using hno
  · intro hs script
    exact play_no_stream pulse hs data_size script
  · intro hs script
    rw [play_eq pulse hs, play_loop_zero]
    rfl
  · intro rs rest hgood hcover
    by_cases hs : pulse.stream = 0
    · rw [play_no_stream pulse hs]
    · rw [play_eq pulse hs, (play_loop_rounds pulse rs 0 data_size rest hgood hcover).1]
  · intro rs z e rest hgood hlt he
    by_cases hs : pulse.stream = 0
    · rw [play_no_stream pulse hs]
    · exact (play_capacity_error pulse data_size rs z e rest hs hgood hlt he).1
  · intro rs z c w rest hgood hlt hc hw
    by_cases hs : pulse.stream = 0
    · rw [play_no_stream pulse hs]
    · exact (play_write_failure pulse data_size rs z c w rest hs hgood hlt hc hw).1

/-- C8, witness: a device with a stream and an empty buffer. -/
theorem tsmf_pulse_play_releases_buffer_witness :
    tsmf_pulse_play playingDevice 0 [5, 0] =
      { trace := [Call.pa_threaded_mainloop_lock playingDevice.mainloop,
          Call.pa_threaded_mainloop_unlock playingDevice.mainloop, Call.xfree_data]
        server := [5, 0], ret := some true } :=
  (tsmf_pulse_play_releases_buffer playingDevice 0).2.2.1 (by decide) [5, 0]


/-! ## Claims about `open`, `set_format`, `flush` and `get_latency` -/

/-- C1: `open` inverts the result of `tsmf_pulse_connect`.  With the event
loop 1 and the connection 2 created, whatever the device name and whatever
the server replies next, `open` returns success exactly when
`tsmf_pulse_connect` returns failure: a connection observed Ready makes
`open` return failure, and a connection that ends Failed or Terminated, a
refused connect request or a failed loop start make it return success. -/
theorem tsmf_pulse_open_inverts_connect (pulse : TSMFPulseAudioDevice)
    (device : Option (List Char)) (overflow : TSMFPulseAudioDevice) (script : List Int) :
    (tsmf_pulse_open pulse device overflow (1 :: 2 :: script)).ret.map Prod.snd =
      (tsmf_pulse_connect
        { (match device with
            | some name => strcpy_device pulse name overflow
            | none => pulse) with mainloop := 1, context := 2 } script).ret.map
        (fun connected => !connected) ∧
    (tsmf_pulse_connect { pulse with mainloop := 1, context := 2 }
      [0, 0, PA_CONTEXT_READY]).ret = some true ∧
    (tsmf_pulse_open pulse device overflow [1, 2, 0, 0, PA_CONTEXT_READY]).ret.map Prod.snd =
      some false ∧
    (tsmf_pulse_open pulse device overflow
      [1, 2, 0, 0, PA_CONTEXT_CONNECTING, PA_CONTEXT_FAILED]).ret.map Prod.snd = some true ∧
    (tsmf_pulse_open pulse device overflow [1, 2, 0, 0, PA_CONTEXT_TERMINATED]).ret.map
      Prod.snd = some true ∧
    (tsmf_pulse_open pulse device overflow [1, 2, -1]).ret.map Prod.snd = some true ∧
    (tsmf_pulse_open pulse device overflow [1, 2, 0, -1]).ret.map Prod.snd = some true := by
  refine ⟨?_, rfl, rfl, rfl, rfl, rfl, rfl⟩
  cases device with
  | none =>
    cases h : (tsmf_pulse_connect { pulse with mainloop := 1, context := 2 } script).ret with
    | none => simp [tsmf_pulse_open, bind_apply, Sim.bind, reply, call, pure_apply, h]
    | some b =>
      cases b <;> simp [tsmf_pulse_open, bind_apply, Sim.bind, reply, call, pure_apply, h]
  | some name =>
    cases h : (tsmf_pulse_connect
        { strcpy_device pulse name overflow with mainloop := 1, context := 2 } script).ret with
    | none => simp [tsmf_pulse_open, bind_apply, Sim.bind, reply, call, pure_apply, h]
    | some b =>
      cases b <;> simp [tsmf_pulse_open, bind_apply, Sim.bind, reply, call, pure_apply, h]

/-- C5: when the playback connect request fails, `set_format` returns failure
and leaves the stream it created in the device, neither disconnected nor
released. -/
theorem tsmf_pulse_set_format_connect_failure_keeps_stream :
    tsmf_pulse_set_format connectedDevice 44100 2 16 [4, -1] =
      { trace := [Call.pa_threaded_mainloop_lock 1, Call.pa_stream_new 2,
          Call.pa_stream_set_state_callback 4, Call.pa_stream_set_write_callback 4 true,
          Call.pa_stream_connect_playback 4, Call.pa_threaded_mainloop_unlock 1]
        server := []
        ret := some
          ({ device := [], mainloop := 1, context := 2, stream := 4,
             sample_spec := { format := PA_SAMPLE_S16LE, rate := 44100, channels := 2 } },
            false) } := by
  decide

/-- C6: on a device with no stream, `flush` locks the event loop and hands
the `NULL` stream handle to `pa_stream_flush`; when that call returns an
operation it also waits on the event loop. -/
theorem tsmf_pulse_flush_null_stream (pulse : TSMFPulseAudioDevice) (script : List Int) :
    (tsmf_pulse_flush { pulse with stream := 0 } script).trace.take 2 =
      [Call.pa_threaded_mainloop_lock pulse.mainloop, Call.pa_stream_flush 0] ∧
    (tsmf_pulse_flush { pulse with stream := 0 } [7, PA_OPERATION_RUNNING, PA_OPERATION_DONE]).trace =
      [Call.pa_threaded_mainloop_lock pulse.mainloop, Call.pa_stream_flush 0,
        Call.pa_operation_get_state 7, Call.pa_threaded_mainloop_wait pulse.mainloop,
        Call.pa_operation_get_state 7, Call.pa_operation_unref 7,
        Call.pa_threaded_mainloop_unlock pulse.mainloop] := by
  constructor
  · cases script <;> rfl
  · rfl

/-- C4, counterexample: `set_format` on a device whose stream 3 is open
creates the new stream 4 at once and stores it over the old handle; stream 3
is neither drained, disconnected nor released. -/
theorem tsmf_pulse_set_format_overwrites_open_stream :
    (tsmf_pulse_set_format playingDevice 44100 2 16 [4, 0, PA_STREAM_READY]).trace =
      [Call.pa_threaded_mainloop_lock 1, Call.pa_stream_new 2,
        Call.pa_stream_set_state_callback 4, Call.pa_stream_set_write_callback 4 true,
        Call.pa_stream_connect_playback 4, Call.pa_stream_get_state 4,
        Call.pa_threaded_mainloop_unlock 1] ∧
    Call.pa_stream_drain 3 ∉
      (tsmf_pulse_set_format playingDevice 44100 2 16 [4, 0, PA_STREAM_READY]).trace ∧
    Call.pa_stream_disconnect 3 ∉
      (tsmf_pulse_set_format playingDevice 44100 2 16 [4, 0, PA_STREAM_READY]).trace ∧
    Call.pa_stream_unref 3 ∉
      (tsmf_pulse_set_format playingDevice 44100 2 16 [4, 0, PA_STREAM_READY]).trace ∧
    (tsmf_pulse_set_format playingDevice 44100 2 16 [4, 0, PA_STREAM_READY]).ret.map
      (fun r => (r.1.stream, r.2)) = some (4, true) := by
  decide

/-- C4, amended: on a device with a connection, `set_format` does not look at
the stream handle it finds.  Its calls, replies read and result are those it
has on the same device with no stream: it locks the event loop, creates the
new stream at once, and stores what `pa_stream_new` returns over the old
handle. -/
theorem tsmf_pulse_set_format_ignores_open_stream (pulse : TSMFPulseAudioDevice)
    (sample_rate channels bits_per_sample : Nat) (script : List Int)
    (hc : pulse.context ≠ 0) :
    tsmf_pulse_set_format pulse sample_rate channels bits_per_sample script =
      tsmf_pulse_set_format { pulse with stream := 0 } sample_rate channels bits_per_sample
        script ∧
    (tsmf_pulse_set_format pulse sample_rate channels bits_per_sample script).trace.take 2 =
      [Call.pa_threaded_mainloop_lock pulse.mainloop, Call.pa_stream_new pulse.context] := by
  constructor
  · simp only [tsmf_pulse_set_format, tsmf_pulse_open_stream, hc, if_false]
  · simp only [tsmf_pulse_set_format, tsmf_pulse_open_stream, hc, if_false]
    cases script <;> rfl

/-- C4, witness: the device with the open stream 3. -/
theorem tsmf_pulse_set_format_ignores_open_stream_witness :
    tsmf_pulse_set_format playingDevice 44100 2 16 [4, 0, PA_STREAM_READY] =
      tsmf_pulse_set_format { playingDevice with stream := 0 } 44100 2 16
        [4, 0, PA_STREAM_READY] ∧
    (tsmf_pulse_set_format playingDevice 44100 2 16 [4, 0, PA_STREAM_READY]).trace.take 2 =
      [Call.pa_threaded_mainloop_lock playingDevice.mainloop,
        Call.pa_stream_new playingDevice.context] :=
  tsmf_pulse_set_format_ignores_open_stream playingDevice 44100 2 16 [4, 0, PA_STREAM_READY]
    (by decide)

/-- C7: `get_latency` returns 0 when there is no stream or the latency query
reports failure; otherwise it returns the reported microseconds times 10 in
64-bit unsigned arithmetic, which is the exact product for every usec up to
(2^64 - 1) / 10.  It never locks and never waits. -/
theorem tsmf_pulse_get_latency_spec (pulse : TSMFPulseAudioDevice) :
    (pulse.stream = 0 → ∀ script : List Int,
      tsmf_pulse_get_latency pulse script = { trace := [], server := script, ret := some 0 }) ∧
    (pulse.stream ≠ 0 → ∀ (rc usec : Int) (rest : List Int), rc ≠ 0 →
      tsmf_pulse_get_latency pulse (rc :: usec :: rest) =
        { trace := [Call.pa_stream_get_latency pulse.stream], server := rest, ret := some 0 }) ∧
    (pulse.stream ≠ 0 → ∀ (usec : Nat) (rest : List Int), usec < 18446744073709551616 →
      tsmf_pulse_get_latency pulse (0 :: (usec : Int) :: rest) =
        { trace := [Call.pa_stream_get_latency pulse.stream], server := rest,
          ret := some (usec * 10 % 18446744073709551616) } ∧
      (usec ≤ 18446744073709551615 / 10 →
        (tsmf_pulse_get_latency pulse (0 :: (usec : Int) :: rest)).ret = some (usec * 10))) ∧
    (∀ (script : List Int) (m : Handle),
      Call.pa_threaded_mainloop_lock m ∉ (tsmf_pulse_get_latency pulse script).trace ∧
      Call.pa_threaded_mainloop_wait m ∉ (tsmf_pulse_get_latency pulse script).trace) := by
  refine ⟨?_, ?_, ?_, ?_⟩
  · intro h script
    simp [tsmf_pulse_get_latency, h, pure_apply]
  · intro h rc usec rest hrc
    simp [tsmf_pulse_get_latency, h, bind_apply, pure_apply, Sim.bind, reply2, hrc]
  · intro h usec rest hu
    have e : toUInt64 (usec : Int) = usec := by
      unfold toUInt64
      rw [Int.emod_eq_of_lt (by omega) (by omega)]
      simp
    have main : tsmf_pulse_get_latency pulse (0 :: (usec : Int) :: rest) =
        { trace := [Call.pa_stream_get_latency pulse.stream], server := rest,
          ret := some (usec * 10 % 18446744073709551616) } := by
      simp [tsmf_pulse_get_latency, h, bind_apply, pure_apply, Sim.bind, reply2, e]
    refine ⟨main, ?_⟩
    intro hle
    rw [main]
    simp
    omega
  · intro script m
    by_cases h : pulse.stream = 0
    · simp [tsmf_pulse_get_latency, h, pure_apply]
    · rcases script with _ | ⟨rc, _ | ⟨usec, rest⟩⟩
      · simp [tsmf_pulse_get_latency, h, bind_apply, pure_apply, Sim.bind, reply2]
      · simp [tsmf_pulse_get_latency, h, bind_apply, pure_apply, Sim.bind, reply2]
      · by_cases hrc : rc = 0 <;>
          simp [tsmf_pulse_get_latency, h, bind_apply, pure_apply, Sim.bind, reply2, hrc]

/-- C7, witness: a reported latency of 25 microseconds is 250 ticks; the
largest usec whose product is exact, and 2^64 - 1, which wraps. -/
theorem tsmf_pulse_get_latency_spec_witness :
    (tsmf_pulse_get_latency playingDevice (0 :: ((25 : Nat) : Int) :: [])).ret =
      some (25 * 10) ∧
    tsmf_pulse_get_latency playingDevice (0 :: ((18446744073709551615 : Nat) : Int) :: []) =
      { trace := [Call.pa_stream_get_latency playingDevice.stream], server := [],
        ret := some (18446744073709551615 * 10 % 18446744073709551616) } ∧
    tsmf_pulse_get_latency playingDevice (-1 :: 25 :: []) =
      { trace := [Call.pa_stream_get_latency playingDevice.stream], server := [],
        ret := some 0 } :=
  ⟨((tsmf_pulse_get_latency_spec playingDevice).2.2.1 (by decide) 25 [] (by decide)).2
      (by decide),
    ((tsmf_pulse_get_latency_spec playingDevice).2.2.1 (by decide) 18446744073709551615 []
      (by decide)).1,
    (tsmf_pulse_get_latency_spec playingDevice).2.1 (by decide) (-1) 25 [] (by decide)⟩

/-! ## Lock discipline -/

theorem lockFrom_append (tr1 : List Call) :
    ∀ (h : Bool) (tr2 : List Call),
      lockFrom h (tr1 ++ tr2) =
        match lockFrom h tr1 with
        | none => none
        | some g => lockFrom g tr2 := by
  induction tr1 with
  | nil => intro h tr2; rfl
  | cons c tr1 ih =>
    intro h tr2
    simp only [List.cons_append, lockFrom]
    cases lockStep h c with
    | none => rfl
    | some g => exact ih g tr2

theorem lockFrom_counts (tr : List Call) :
    ∀ (h g : Bool), lockFrom h tr = some g →
      countLocks tr + (if h then 1 else 0) = countUnlocks tr + (if g then 1 else 0) := by
  induction tr with
  | nil =>
    intro h g hh
    simp [lockFrom] at hh
    subst hh
    simp [countLocks, countUnlocks]
  | cons c tr ih =>
    intro h g hh
    simp only [lockFrom] at hh
    cases hstep : lockStep h c with
    | none => rw [hstep] at hh; cases hh
    | some k =>
      rw [hstep] at hh
      have := ih k g hh
      cases c <;> cases h <;> simp [lockStep] at hstep <;> subst hstep <;>
        simp [countLocks, countUnlocks] at this ⊢ <;> omega

theorem LockOK_pure {α : Type} (h : Bool) (a : α) : LockOK h h (pure a : Sim α) := by
  intro sv
  simp [pure_apply, lockFrom]

theorem LockOK_call (h g : Bool) (c : Call) (hc : lockStep h c = some g) :
    LockOK h g (call c) := by
  intro sv
  simp [call, lockFrom, hc]

theorem LockOK_reply (h g : Bool) (c : Call) (hc : lockStep h c = some g) :
    LockOK h g (reply c) := by
  intro sv
  cases sv <;> simp [reply, lockFrom, hc]

theorem LockOK_bind {α β : Type} (h k g : Bool) (x : Sim α) (f : α → Sim β)
    (hx : LockOK h k x) (hf : ∀ a, LockOK k g (f a)) : LockOK h g (x >>= f) := by
  intro sv
  have h1 := hx sv
  rw [bind_apply]
  unfold Sim.bind
  cases hr : (x sv).ret with
  | none => simpa using h1.1
  | some a =>
    have h2 := hf a (x sv).server
    have h3 := h1.2 (by simp [hr])
    simp only [lockFrom_append, h3]
    exact h2

theorem LockOK_ite {α : Type} (h g : Bool) (p : Prop) [Decidable p] (x y : Sim α)
    (hx : LockOK h g x) (hy : LockOK h g y) : LockOK h g (if p then x else y) := by
  by_cases hp : p <;> simp [hp, hx, hy]

theorem LockOK_discipline {α : Type} (x : Sim α) (hx : LockOK false false x) (sv : List Int) :
    LockDiscipline (x sv) := by
  refine ⟨(hx sv).1, fun hr => ?_⟩
  have h := (hx sv).2 hr
  refine ⟨h, ?_⟩
  simpa using lockFrom_counts _ false false h

theorem LockOK_connect_loop (pulse : TSMFPulseAudioDevice) :
    LockOK true true (tsmf_pulse_connect_loop pulse) := by
  intro sv
  induction sv with
  | nil => simp [tsmf_pulse_connect_loop, lockFrom, lockStep]
  | cons state rest ih =>
    rw [tsmf_pulse_connect_loop]
    by_cases h1 : state = PA_CONTEXT_READY
    · simp [h1, lockFrom, lockStep]
    · by_cases h2 : PA_CONTEXT_IS_GOOD state = true
      · simpa [h1, h2, lockFrom, lockStep] using ih
      · simp [h1, h2, lockFrom, lockStep]

theorem LockOK_open_stream_loop (pulse : TSMFPulseAudioDevice) :
    LockOK true true (tsmf_pulse_open_stream_loop pulse) := by
  intro sv
  induction sv with
  | nil => simp [tsmf_pulse_open_stream_loop, lockFrom, lockStep]
  | cons state rest ih =>
    rw [tsmf_pulse_open_stream_loop]
    by_cases h1 : state = PA_STREAM_READY
    · simp [h1, lockFrom, lockStep]
    · by_cases h2 : PA_STREAM_IS_GOOD state = true
      · simpa [h1, h2, lockFrom, lockStep] using ih
      · simp [h1, h2, lockFrom, lockStep]

theorem LockOK_wait_for_operation_loop (pulse : TSMFPulseAudioDevice) (operation : Handle) :
    LockOK true true (tsmf_pulse_wait_for_operation_loop pulse operation) := by
  intro sv
  induction sv with
  | nil => simp [tsmf_pulse_wait_for_operation_loop, lockFrom, lockStep]
  | cons state rest ih =>
    rw [tsmf_pulse_wait_for_operation_loop]
    by_cases h1 : state = PA_OPERATION_RUNNING
    · simpa [h1, lockFrom, lockStep] using ih
    · simp [h1, lockFrom, lockStep]

theorem LockOK_wait_for_operation (pulse : TSMFPulseAudioDevice) (operation : Handle) :
    LockOK true true (tsmf_pulse_wait_for_operation pulse operation) := by
  unfold tsmf_pulse_wait_for_operation
  refine LockOK_ite _ _ _ _ _ (LockOK_pure _ _) ?_
  exact LockOK_bind _ _ _ _ _ (LockOK_wait_for_operation_loop pulse operation)
    (fun _ => LockOK_call _ _ _ rfl)

theorem LockOK_play_loop (pulse : TSMFPulseAudioDevice) :
    ∀ (k : Nat) (sv : List Int), sv.length ≤ k → ∀ (src n : Nat),
      (lockFrom true (tsmf_pulse_play_loop pulse src n sv).trace).isSome = true ∧
      ((tsmf_pulse_play_loop pulse src n sv).ret.isSome = true →
        lockFrom true (tsmf_pulse_play_loop pulse src n sv).trace = some true) := by
  intro k
  induction k with
  | zero =>
    intro sv hk src n
    have : sv = [] := List.length_eq_zero.mp (by omega)
    subst this
    rw [tsmf_pulse_play_loop]
    by_cases h0 : n = 0 <;> simp [h0, lockFrom, lockStep]
  | succ k ih =>
    intro sv hk src n
    by_cases h0 : n = 0
    · subst h0
      simp [play_loop_zero, lockFrom]
    · rcases sv with _ | ⟨w, rest⟩
      · rw [tsmf_pulse_play_loop]
        simp [h0, lockFrom, lockStep]
      · have hrest : rest.length ≤ k := by simpa using hk
        by_cases h1 : toInt32 w = 0
        · rw [tsmf_pulse_play_loop]
          simpa [h0, h1, lockFrom, lockStep] using ih rest hrest src n
        · by_cases h2 : toInt32 w < 0
          · rw [tsmf_pulse_play_loop]
            simp [h0, h1, h2, lockFrom, lockStep]
          · rcases rest with _ | ⟨ret, rest1⟩
            · rw [tsmf_pulse_play_loop]
              simp [h0, h1, h2, lockFrom, lockStep]
            · have hrest1 : rest1.length ≤ k := by
                simp at hrest
                omega
              rw [tsmf_pulse_play_loop]
              by_cases h3 : ret < 0
              · simp [h0, h1, h2, h3, lockFrom, lockStep]
              · simpa [h0, h1, h2, h3, lockFrom, lockStep] using ih rest1 hrest1 _ _

theorem LockOK_connect (pulse : TSMFPulseAudioDevice) :
    LockOK false false (tsmf_pulse_connect pulse) := by
  unfold tsmf_pulse_connect
  refine LockOK_ite _ _ _ _ _ (LockOK_pure _ _) ?_
  refine LockOK_bind false false false _ _ (LockOK_reply _ _ _ rfl) (fun rc => ?_)
  refine LockOK_ite _ _ _ _ _ (LockOK_pure _ _) ?_
  refine LockOK_bind false true false _ _ (LockOK_call _ _ _ rfl) (fun _ => ?_)
  refine LockOK_bind true true false _ _ (LockOK_reply _ _ _ rfl) (fun started => ?_)
  refine LockOK_ite _ _ _ _ _ ?_ ?_
  · exact LockOK_bind true false false _ _ (LockOK_call _ _ _ rfl) (fun _ => LockOK_pure _ _)
  · refine LockOK_bind true true false _ _ (LockOK_connect_loop pulse) (fun state => ?_)
    refine LockOK_bind true false false _ _ (LockOK_call _ _ _ rfl) (fun _ => ?_)
    refine LockOK_ite _ _ _ _ _ (LockOK_pure _ _) ?_
    exact LockOK_bind false false false _ _ (LockOK_call _ _ _ rfl) (fun _ => LockOK_pure _ _)

theorem LockOK_close_stream (pulse : TSMFPulseAudioDevice) :
    LockOK false false (tsmf_pulse_close_stream pulse) := by
  unfold tsmf_pulse_close_stream
  refine LockOK_ite _ _ _ _ _ (LockOK_pure _ _) ?_
  refine LockOK_bind false true false _ _ (LockOK_call _ _ _ rfl) (fun _ => ?_)
  refine LockOK_bind true true false _ _ (LockOK_call _ _ _ rfl) (fun _ => ?_)
  refine LockOK_bind true true false _ _ (LockOK_reply _ _ _ rfl) (fun operation => ?_)
  refine LockOK_bind true true false _ _ (LockOK_wait_for_operation pulse operation) (fun _ => ?_)
  refine LockOK_bind true true false _ _ (LockOK_call _ _ _ rfl) (fun _ => ?_)
  refine LockOK_bind true true false _ _ (LockOK_call _ _ _ rfl) (fun _ => ?_)
  exact LockOK_bind true false false _ _ (LockOK_call _ _ _ rfl) (fun _ => LockOK_pure _ _)

theorem LockOK_open_stream (pulse : TSMFPulseAudioDevice) :
    LockOK false false (tsmf_pulse_open_stream pulse) := by
  unfold tsmf_pulse_open_stream
  refine LockOK_ite _ _ _ _ _ (LockOK_pure _ _) ?_
  refine LockOK_bind false true false _ _ (LockOK_call _ _ _ rfl) (fun _ => ?_)
  refine LockOK_bind true true false _ _ (LockOK_reply _ _ _ rfl) (fun s => ?_)
  refine LockOK_ite _ _ _ _ _ ?_ ?_
  · exact LockOK_bind true false false _ _ (LockOK_call _ _ _ rfl) (fun _ => LockOK_pure _ _)
  · refine LockOK_bind true true false _ _ (LockOK_call _ _ _ rfl) (fun _ => ?_)
    refine LockOK_bind true true false _ _ (LockOK_call _ _ _ rfl) (fun _ => ?_)
    refine LockOK_bind true true false _ _ (LockOK_reply _ _ _ rfl) (fun rc => ?_)
    refine LockOK_ite _ _ _ _ _ ?_ ?_
    · exact LockOK_bind true false false _ _ (LockOK_call _ _ _ rfl) (fun _ => LockOK_pure _ _)
    · refine LockOK_bind true true false _ _ (LockOK_open_stream_loop _) (fun state => ?_)
      refine LockOK_bind true false false _ _ (LockOK_call _ _ _ rfl) (fun _ => ?_)
      refine LockOK_ite _ _ _ _ _ (LockOK_pure _ _) ?_
      exact LockOK_bind false false false _ _ (LockOK_close_stream _) (fun _ => LockOK_pure _ _)

theorem LockOK_play (pulse : TSMFPulseAudioDevice) (data_size : Nat) :
    LockOK false false (tsmf_pulse_play pulse data_size) := by
  unfold tsmf_pulse_play
  refine LockOK_ite _ _ _ _ _ ?_ ?_
  · refine LockOK_bind false true false _ _ (LockOK_call _ _ _ rfl) (fun _ => ?_)
    refine LockOK_bind true true false _ _
      (fun sv => LockOK_play_loop pulse sv.length sv (Nat.le_refl _) 0 data_size) (fun _ => ?_)
    refine LockOK_bind true false false _ _ (LockOK_call _ _ _ rfl) (fun _ => ?_)
    exact LockOK_bind false false false _ _ (LockOK_call _ _ _ rfl) (fun _ => LockOK_pure _ _)
  · exact LockOK_bind false false false _ _ (LockOK_call _ _ _ rfl) (fun _ => LockOK_pure _ _)

theorem LockOK_flush (pulse : TSMFPulseAudioDevice) :
    LockOK false false (tsmf_pulse_flush pulse) := by
  unfold tsmf_pulse_flush
  refine LockOK_bind false true false _ _ (LockOK_call _ _ _ rfl) (fun _ => ?_)
  refine LockOK_bind true true false _ _ (LockOK_reply _ _ _ rfl) (fun operation => ?_)
  refine LockOK_bind true true false _ _ (LockOK_wait_for_operation pulse operation) (fun _ => ?_)
  exact LockOK_call _ _ _ rfl

/-- C10: for every device and every script of server replies, the traces of
`tsmf_pulse_connect`, `tsmf_pulse_open_stream`, `tsmf_pulse_close_stream`,
`tsmf_pulse_play` and `tsmf_pulse_flush` keep the lock discipline: every wait
is made with the lock held, the lock is never taken while held, and a run
that returns, on whatever path, has released the lock, with as many unlocks
as locks. -/
theorem tsmf_pulse_lock_discipline (pulse : TSMFPulseAudioDevice) (data_size : Nat)
    (script : List Int) :
    LockDiscipline (tsmf_pulse_connect pulse script) ∧
    LockDiscipline (tsmf_pulse_open_stream pulse script) ∧
    LockDiscipline (tsmf_pulse_close_stream pulse script) ∧
    LockDiscipline (tsmf_pulse_play pulse data_size script) ∧
    LockDiscipline (tsmf_pulse_flush pulse script) :=
  ⟨LockOK_discipline _ (LockOK_connect pulse) script,
    LockOK_discipline _ (LockOK_open_stream pulse) script,
    LockOK_discipline _ (LockOK_close_stream pulse) script,
    LockOK_discipline _ (LockOK_play pulse data_size) script,
    LockOK_discipline _ (LockOK_flush pulse) script⟩

/-- C10, witness: the five runs on the replies 0, 0, 1, 4, among them a
connection that becomes ready after one wait and a `play` of four bytes that
waits twice, writes one byte and is cut waiting for more capacity. -/
theorem tsmf_pulse_lock_discipline_witness :
    LockDiscipline
      (tsmf_pulse_connect playingDevice [0, 0, PA_CONTEXT_CONNECTING, PA_CONTEXT_READY]) ∧
    LockDiscipline
      (tsmf_pulse_open_stream playingDevice
        [0, 0, PA_CONTEXT_CONNECTING, PA_CONTEXT_READY]) ∧
    LockDiscipline
      (tsmf_pulse_close_stream playingDevice
        [0, 0, PA_CONTEXT_CONNECTING, PA_CONTEXT_READY]) ∧
    LockDiscipline
      (tsmf_pulse_play playingDevice 4 [0, 0, PA_CONTEXT_CONNECTING, PA_CONTEXT_READY]) ∧
    LockDiscipline
      (tsmf_pulse_flush playingDevice [0, 0, PA_CONTEXT_CONNECTING, PA_CONTEXT_READY]) :=
  tsmf_pulse_lock_discipline playingDevice 4 [0, 0, PA_CONTEXT_CONNECTING, PA_CONTEXT_READY]

/-! ## Teardown -/

theorem RetSat_pure {α : Type} (a : α) (P : α → Prop) (h : P a) : RetSat (pure a : Sim α) P := by
  intro sv b hb
  simp [pure_apply] at hb
  subst hb
  exact h

theorem RetSat_bind {α β : Type} (x : Sim α) (f : α → Sim β) (Q : α → Prop) (P : β → Prop)
    (hx : RetSat x Q) (hf : ∀ a, Q a → RetSat (f a) P) : RetSat (x >>= f) P := by
  intro sv b hb
  rw [bind_apply] at hb
  unfold Sim.bind at hb
  cases hr : (x sv).ret with
  | none => simp [hr] at hb
  | some a =>
    simp only [hr] at hb
    exact hf a (hx sv a hr) _ b hb

theorem RetSat_true {α : Type} (x : Sim α) : RetSat x (fun _ => True) :=
  fun _ _ _ => trivial

theorem RetSat_ite {α : Type} (p : Prop) [Decidable p] (x y : Sim α) (P : α → Prop)
    (hx : RetSat x P) (hy : RetSat y P) : RetSat (if p then x else y) P := by
  by_cases hp : p <;> simp [hp, hx, hy]

theorem TraceSat_pure {α : Type} (a : α) (P : Call → Prop) : TraceSat (pure a : Sim α) P := by
  intro sv c hc
  simp [pure_apply] at hc

theorem TraceSat_call (c : Call) (P : Call → Prop) (h : P c) : TraceSat (call c) P := by
  intro sv d hd
  simp [call] at hd
  subst hd
  exact h

theorem TraceSat_reply (c : Call) (P : Call → Prop) (h : P c) : TraceSat (reply c) P := by
  intro sv d hd
  cases sv <;> simp [reply] at hd <;> subst hd <;> exact h

theorem TraceSat_bind {α β : Type} (x : Sim α) (f : α → Sim β) (P : Call → Prop)
    (hx : TraceSat x P) (hf : ∀ a, TraceSat (f a) P) : TraceSat (x >>= f) P := by
  intro sv c hc
  rw [bind_apply] at hc
  unfold Sim.bind at hc
  cases hr : (x sv).ret with
  | none =>
    simp only [hr] at hc
    exact hx sv c hc
  | some a =>
    simp only [hr, List.mem_append] at hc
    rcases hc with hc | hc
    · exact hx sv c hc
    · exact hf a _ c hc

theorem TraceSat_ite {α : Type} (p : Prop) [Decidable p] (x y : Sim α) (P : Call → Prop)
    (hx : TraceSat x P) (hy : TraceSat y P) : TraceSat (if p then x else y) P := by
  by_cases hp : p <;> simp [hp, hx, hy]

theorem TraceSat_wait_for_operation_loop (pulse : TSMFPulseAudioDevice) (operation : Handle)
    (P : Call → Prop) (h1 : P (Call.pa_operation_get_state operation))
    (h2 : P (Call.pa_threaded_mainloop_wait pulse.mainloop)) :
    TraceSat (tsmf_pulse_wait_for_operation_loop pulse operation) P := by
  intro sv
  induction sv with
  | nil =>
    intro c hc
    simp [tsmf_pulse_wait_for_operation_loop] at hc
    subst hc
    exact h1
  | cons state rest ih =>
    intro c hc
    rw [tsmf_pulse_wait_for_operation_loop] at hc
    by_cases hs : state = PA_OPERATION_RUNNING
    · simp only [hs, if_true, List.mem_cons] at hc
      rcases hc with hc | hc | hc
      · subst hc; exact h1
      · subst hc; exact h2
      · exact ih c hc
    · simp only [hs, if_false, List.mem_singleton] at hc
      subst hc
      exact h1

theorem TraceSat_wait_for_operation (pulse : TSMFPulseAudioDevice) (operation : Handle)
    (P : Call → Prop) (h1 : P (Call.pa_operation_get_state operation))
    (h2 : P (Call.pa_threaded_mainloop_wait pulse.mainloop))
    (h3 : P (Call.pa_operation_unref operation)) :
    TraceSat (tsmf_pulse_wait_for_operation pulse operation) P := by
  unfold tsmf_pulse_wait_for_operation
  refine TraceSat_ite _ _ _ _ (TraceSat_pure _ _) ?_
  exact TraceSat_bind _ _ _ (TraceSat_wait_for_operation_loop pulse operation P h1 h2)
    (fun _ => TraceSat_call _ _ h3)

/-- The run of `tsmf_pulse_close_stream` when there is nothing to close. -/
theorem close_stream_nothing (pulse : TSMFPulseAudioDevice)
    (h : pulse.context = 0 ∨ pulse.stream = 0) (sv : List Int) :
    tsmf_pulse_close_stream pulse sv = { trace := [], server := sv, ret := some (pulse, false) } := by
  simp [tsmf_pulse_close_stream, h, pure_apply]

/-- The run of `tsmf_pulse_close_stream` on a stream, in terms of the run of
the wait for the drain operation. -/
theorem close_stream_eq (pulse : TSMFPulseAudioDevice) (hc : pulse.context ≠ 0)
    (hs : pulse.stream ≠ 0) (operation : Int) (rest : List Int) :
    tsmf_pulse_close_stream pulse (operation :: rest) =
      match (tsmf_pulse_wait_for_operation pulse operation rest).ret with
      | none =>
        { trace := [Call.pa_threaded_mainloop_lock pulse.mainloop,
            Call.pa_stream_set_write_callback pulse.stream false,
            Call.pa_stream_drain pulse.stream] ++
            (tsmf_pulse_wait_for_operation pulse operation rest).trace
          server := (tsmf_pulse_wait_for_operation pulse operation rest).server, ret := none }
      | some _ =>
        { trace := [Call.pa_threaded_mainloop_lock pulse.mainloop,
            Call.pa_stream_set_write_callback pulse.stream false,
            Call.pa_stream_drain pulse.stream] ++
            (tsmf_pulse_wait_for_operation pulse operation rest).trace ++
            [Call.pa_stream_disconnect pulse.stream, Call.pa_stream_unref pulse.stream,
              Call.pa_threaded_mainloop_unlock pulse.mainloop]
          server := (tsmf_pulse_wait_for_operation pulse operation rest).server
          ret := some ({ pulse with stream := 0 }, true) } := by
  have h : ¬ (pulse.context = 0 ∨ pulse.stream = 0) := by simp [hc, hs]
  simp only [tsmf_pulse_close_stream, h, if_false, bind_apply, Sim.bind, call, reply, pure_apply]
  cases hr : (tsmf_pulse_wait_for_operation pulse operation rest).ret <;> simp

theorem close_stream_nil (pulse : TSMFPulseAudioDevice) (hc : pulse.context ≠ 0)
    (hs : pulse.stream ≠ 0) : (tsmf_pulse_close_stream pulse []).ret = none := by
  have h : ¬ (pulse.context = 0 ∨ pulse.stream = 0) := by simp [hc, hs]
  simp [tsmf_pulse_close_stream, h, bind_apply, Sim.bind, call, reply]

/-- The calls of `free` after the stream has been closed. -/
theorem free_eq (pulse : TSMFPulseAudioDevice) (sv : List Int) :
    tsmf_pulse_free pulse sv =
      match (tsmf_pulse_close_stream pulse sv).ret with
      | none =>
        { trace := (tsmf_pulse_close_stream pulse sv).trace
          server := (tsmf_pulse_close_stream pulse sv).server, ret := none }
      | some closed =>
        { trace := (tsmf_pulse_close_stream pulse sv).trace ++
            ((if closed.1.mainloop ≠ 0 then [Call.pa_threaded_mainloop_stop closed.1.mainloop]
              else []) ++
            (if closed.1.context ≠ 0 then
                [Call.pa_context_disconnect closed.1.context, Call.pa_context_unref closed.1.context]
              else []) ++
            (if closed.1.mainloop ≠ 0 then [Call.pa_threaded_mainloop_free closed.1.mainloop]
              else []) ++
            [Call.xfree_pulse])
          server := (tsmf_pulse_close_stream pulse sv).server, ret := some () } := by
  simp only [tsmf_pulse_free, bind_apply]
  unfold Sim.bind
  cases hr : (tsmf_pulse_close_stream pulse sv).ret with
  | none => rfl
  | some closed =>
    by_cases hm : closed.1.mainloop = 0 <;> by_cases hc : closed.1.context = 0 <;>
      simp [hm, hc, call, pure_apply, bind_apply, Sim.bind]

theorem close_stream_ret (pulse : TSMFPulseAudioDevice) :
    RetSat (tsmf_pulse_close_stream pulse)
      (fun r => r.1.mainloop = pulse.mainloop ∧ r.1.context = pulse.context) := by
  unfold tsmf_pulse_close_stream
  refine RetSat_ite _ _ _ _ (RetSat_pure _ _ ⟨rfl, rfl⟩) ?_
  refine RetSat_bind _ _ _ _ (RetSat_true _) (fun _ _ => ?_)
  refine RetSat_bind _ _ _ _ (RetSat_true _) (fun _ _ => ?_)
  refine RetSat_bind _ _ _ _ (RetSat_true _) (fun _ _ => ?_)
  refine RetSat_bind _ _ _ _ (RetSat_true _) (fun _ _ => ?_)
  refine RetSat_bind _ _ _ _ (RetSat_true _) (fun _ _ => ?_)
  refine RetSat_bind _ _ _ _ (RetSat_true _) (fun _ _ => ?_)
  refine RetSat_bind _ _ _ _ (RetSat_true _) (fun _ _ => ?_)
  exact RetSat_pure _ _ ⟨rfl, rfl⟩

theorem open_stream_ret (pulse : TSMFPulseAudioDevice) :
    RetSat (tsmf_pulse_open_stream pulse)
      (fun r => r.1.mainloop = pulse.mainloop ∧ r.1.context = pulse.context ∧
        (pulse.context = 0 → r.1.stream = pulse.stream)) := by
  unfold tsmf_pulse_open_stream
  by_cases hc : pulse.context = 0
  · simp only [hc, if_true]
    exact RetSat_pure _ _ ⟨rfl, hc.symm ▸ rfl, fun _ => rfl⟩
  · have hP : ∀ (s : Int) (b : Bool),
        (fun r : TSMFPulseAudioDevice × Bool =>
          r.1.mainloop = pulse.mainloop ∧ r.1.context = pulse.context ∧
            (pulse.context = 0 → r.1.stream = pulse.stream))
          ({ pulse with stream := s }, b) :=
      fun s b => ⟨rfl, rfl, fun h => absurd h hc⟩
    rw [if_neg hc]
    refine RetSat_bind _ _ _ _ (RetSat_true _) (fun _ _ => ?_)
    refine RetSat_bind _ _ _ _ (RetSat_true _) (fun s _ => ?_)
    refine RetSat_ite _ _ _ _ ?_ ?_
    · exact RetSat_bind _ _ _ _ (RetSat_true _) (fun _ _ => RetSat_pure _ _ (hP s false))
    · refine RetSat_bind _ _ _ _ (RetSat_true _) (fun _ _ => ?_)
      refine RetSat_bind _ _ _ _ (RetSat_true _) (fun _ _ => ?_)
      refine RetSat_bind _ _ _ _ (RetSat_true _) (fun rc _ => ?_)
      refine RetSat_ite _ _ _ _ ?_ ?_
      · exact RetSat_bind _ _ _ _ (RetSat_true _) (fun _ _ => RetSat_pure _ _ (hP s false))
      · refine RetSat_bind _ _ _ _ (RetSat_true _) (fun state _ => ?_)
        refine RetSat_bind _ _ _ _ (RetSat_true _) (fun _ _ => ?_)
        refine RetSat_ite _ _ _ _ (RetSat_pure _ _ (hP s true)) ?_
        refine RetSat_bind _ _ _ _ (close_stream_ret _) (fun closed hcl => ?_)
        exact RetSat_pure _ _ ⟨hcl.1, hcl.2, fun h => absurd h hc⟩

theorem open_ret (pulse : TSMFPulseAudioDevice) (device : Option (List Char))
    (overflow : TSMFPulseAudioDevice) (hctx : pulse.context = 0)
    (hfit : ∀ name : List Char, device = some name → name.length < 32) :
    RetSat (tsmf_pulse_open pulse device overflow)
      (fun r => r.1.stream = pulse.stream ∧ (r.1.context ≠ 0 → r.1.mainloop ≠ 0)) := by
  have hd : (match device with
      | some name => strcpy_device pulse name overflow
      | none => pulse).stream = pulse.stream ∧
      (match device with
      | some name => strcpy_device pulse name overflow
      | none => pulse).context = 0 := by
    cases device with
    | none => exact ⟨rfl, hctx⟩
    | some name =>
      have hlen := hfit name rfl
      simp [strcpy_device, hlen, hctx]
  unfold tsmf_pulse_open
  refine RetSat_bind _ _ _ _ (RetSat_true _) (fun m _ => ?_)
  by_cases hm : m = 0
  · rw [if_pos hm]
    exact RetSat_pure _ _ ⟨hd.1, fun h => absurd hd.2 h⟩
  · rw [if_neg hm]
    refine RetSat_bind _ _ _ _ (RetSat_true _) (fun _ _ => ?_)
    refine RetSat_bind _ _ _ _ (RetSat_true _) (fun c _ => ?_)
    refine RetSat_ite _ _ _ _ ?_ ?_
    · exact RetSat_pure _ _ ⟨hd.1, fun _ => hm⟩
    · refine RetSat_bind _ _ _ _ (RetSat_true _) (fun _ _ => ?_)
      refine RetSat_bind _ _ _ _ (RetSat_true _) (fun connected _ => ?_)
      refine RetSat_ite _ _ _ _ ?_ ?_
      · exact RetSat_pure _ _ ⟨hd.1, fun _ => hm⟩
      · exact RetSat_pure _ _ ⟨hd.1, fun _ => hm⟩

/-- The handles of a device reached with `open` called only on a device
without a connection and with a name that fits: a stream comes with a
connection, a connection with an event loop. -/
theorem reachable_handles (pulse : TSMFPulseAudioDevice) (hr : ReachableOpenOnce pulse) :
    (pulse.stream ≠ 0 → pulse.context ≠ 0) ∧ (pulse.context ≠ 0 → pulse.mainloop ≠ 0) := by
  induction hr with
  | entry => exact ⟨fun h => absurd rfl h, fun h => absurd rfl h⟩
  | opened pulse p device overflow script b _ hctx hfit hrun ih =>
    have h := open_ret pulse device overflow hctx hfit script (p, b) hrun
    refine ⟨fun hs => ?_, h.2⟩
    have h1 : pulse.stream ≠ 0 := by
      rw [← h.1]
      exact hs
    exact absurd hctx (ih.1 h1)
  | formatted pulse p sample_rate channels bits_per_sample script b _ hrun ih =>
    have h := open_stream_ret _ script (p, b) hrun
    simp only at h
    refine ⟨fun hs => ?_, fun hc => ?_⟩
    · rw [h.2.1]
      intro h0
      exact absurd (h.2.2 h0 ▸ hs) (fun hs2 => ih.1 hs2 h0)
    · rw [h.1]
      exact ih.2 (h.2.1 ▸ hc)

theorem wait_for_operation_loop_returns (pulse : TSMFPulseAudioDevice) (operation : Handle)
    (state : Int) (hstate : state ≠ PA_OPERATION_RUNNING) (rest : List Int) :
    ∀ k : Nat,
      (tsmf_pulse_wait_for_operation_loop pulse operation
        (List.replicate k PA_OPERATION_RUNNING ++ state :: rest)).ret = some () := by
  intro k
  induction k with
  | zero => simp [tsmf_pulse_wait_for_operation_loop, hstate]
  | succ k ih =>
    rw [List.replicate_succ, List.cons_append, tsmf_pulse_wait_for_operation_loop]
    simpa using ih

theorem wait_for_operation_returns (pulse : TSMFPulseAudioDevice) (operation : Handle)
    (state : Int) (hstate : state ≠ PA_OPERATION_RUNNING) (rest : List Int) (k : Nat) :
    (tsmf_pulse_wait_for_operation pulse operation
      (List.replicate k PA_OPERATION_RUNNING ++ state :: rest)).ret = some () := by
  unfold tsmf_pulse_wait_for_operation
  by_cases ho : operation = 0
  · simp [ho, pure_apply]
  · rw [if_neg ho, bind_apply]
    unfold Sim.bind
    rw [wait_for_operation_loop_returns pulse operation state hstate rest k]
    simp [call]

theorem close_stream_notNull (pulse : TSMFPulseAudioDevice)
    (hm : pulse.context ≠ 0 → pulse.mainloop ≠ 0) :
    TraceSat (tsmf_pulse_close_stream pulse) (fun c => passesNull c = false) := by
  unfold tsmf_pulse_close_stream
  by_cases h : pulse.context = 0 ∨ pulse.stream = 0
  · rw [if_pos h]
    exact TraceSat_pure _ _
  · rw [if_neg h]
    have hc : pulse.context ≠ 0 := fun h0 => h (Or.inl h0)
    have hs : pulse.stream ≠ 0 := fun h0 => h (Or.inr h0)
    have hml := hm hc
    refine TraceSat_bind _ _ _ (TraceSat_call _ _ (by simpa [passesNull] using hml)) (fun _ => ?_)
    refine TraceSat_bind _ _ _ (TraceSat_call _ _ (by simpa [passesNull] using hs)) (fun _ => ?_)
    refine TraceSat_bind _ _ _ (TraceSat_reply _ _ (by simpa [passesNull] using hs)) (fun op => ?_)
    refine TraceSat_bind _ _ _
      (TraceSat_wait_for_operation pulse op _ rfl (by simpa [passesNull] using hml) rfl)
      (fun _ => ?_)
    refine TraceSat_bind _ _ _ (TraceSat_call _ _ (by simpa [passesNull] using hs)) (fun _ => ?_)
    refine TraceSat_bind _ _ _ (TraceSat_call _ _ (by simpa [passesNull] using hs)) (fun _ => ?_)
    refine TraceSat_bind _ _ _ (TraceSat_call _ _ (by simpa [passesNull] using hml)) (fun _ => ?_)
    exact TraceSat_pure _ _

/-- C9, counterexample: two combinations after which `free` hands the `NULL`
event loop to `pa_threaded_mainloop_lock`.  First, an `open` that connects,
a `set_format` that opens stream 3 and a second `open` whose event loop
cannot be created: the device keeps its connection and stream with a `NULL`
event loop.  Second, a single failed `open` on a fresh device with a name of
71 chars when no event loop can be created: the unchecked `strcpy` has
written over the connection and stream handles, which are not `NULL`, and
the event loop is. -/
theorem tsmf_pulse_free_after_second_open :
    Reachable reopenedDevice ∧
    (tsmf_pulse_free reopenedDevice [0]).trace =
      [Call.pa_threaded_mainloop_lock 0, Call.pa_stream_set_write_callback 3 false,
        Call.pa_stream_drain 3, Call.pa_stream_disconnect 3, Call.pa_stream_unref 3,
        Call.pa_threaded_mainloop_unlock 0, Call.pa_context_disconnect 2,
        Call.pa_context_unref 2, Call.xfree_pulse] ∧
    passesNull (Call.pa_threaded_mainloop_lock 0) = true ∧
    (tsmf_pulse_open TSMFAudioDeviceEntry (some longName) longNameOverflow [0]).ret =
      some (overflowedDevice, false) ∧
    Reachable overflowedDevice ∧
    (tsmf_pulse_free overflowedDevice [0]).trace.take 3 =
      [Call.pa_threaded_mainloop_lock 0,
        Call.pa_stream_set_write_callback 27410143614427489 false,
        Call.pa_stream_drain 27410143614427489] := by
  refine ⟨?_, by decide, by decide, by decide, ?_, by decide⟩
  · have h1 : Reachable connectedDevice :=
      Reachable.opened TSMFAudioDeviceEntry connectedDevice none TSMFAudioDeviceEntry
        [1, 2, 0, 0, PA_CONTEXT_READY] false Reachable.entry (by decide)
    have h2 : Reachable formattedDevice :=
      Reachable.formatted connectedDevice formattedDevice 44100 2 16 [3, 0, PA_STREAM_READY]
        true h1 (by decide)
    exact Reachable.opened _ reopenedDevice none TSMFAudioDeviceEntry [0] false h2 (by decide)
  · exact Reachable.opened TSMFAudioDeviceEntry overflowedDevice (some longName)
      longNameOverflow [0] false Reachable.entry (by decide)

/-- C9, amended: for every device state reachable from the factory by `open`
and `set_format` calls, failed or successful, with `open` never called on a
device that already holds a connection and never with a device name of 32
chars or more, `free` hands no `NULL` event-loop,
connection or stream handle to the server library; when it returns, its
calls are, in this order: close the stream (drain, disconnect, release),
stop the event loop, disconnect and release the connection, release the
event loop, release the device.  It returns when there is no stream, and
whenever the drain operation is reported no longer running. -/
theorem tsmf_pulse_free_teardown (pulse : TSMFPulseAudioDevice) (hr : ReachableOpenOnce pulse)
    (script : List Int) :
    (∀ c ∈ (tsmf_pulse_free pulse script).trace, passesNull c = false) ∧
    ((tsmf_pulse_free pulse script).ret = some () →
      ∃ ws : List Call, (∀ c ∈ ws, isDrainWait c = true) ∧
        (tsmf_pulse_free pulse script).trace = teardownOrder pulse ws) ∧
    (pulse.stream = 0 → (tsmf_pulse_free pulse script).ret = some ()) ∧
    (∀ (operation state : Int) (k : Nat) (rest : List Int), state ≠ PA_OPERATION_RUNNING →
      script = operation :: (List.replicate k PA_OPERATION_RUNNING ++ state :: rest) →
      (tsmf_pulse_free pulse script).ret = some ()) := by
  have hinv := reachable_handles pulse hr
  have hnull := close_stream_notNull pulse hinv.2 script
  refine ⟨?_, ?_, ?_, ?_⟩
  · intro c hc
    rw [free_eq] at hc
    cases hret : (tsmf_pulse_close_stream pulse script).ret with
    | none =>
      simp only [hret] at hc
      exact hnull c hc
    | some closed =>
      simp only [hret, List.mem_append] at hc
      rcases hc with hc | hc
      · exact hnull c hc
      · revert c
        by_cases hm : closed.1.mainloop = 0 <;> by_cases hx : closed.1.context = 0 <;>
          simp [hm, hx, passesNull, or_imp, forall_and]
  · intro hret
    by_cases hs : pulse.stream = 0
    · refine ⟨[], by simp, ?_⟩
      rw [free_eq, close_stream_nothing pulse (Or.inr hs)]
      simp [teardownOrder, hs]
    · have hc := hinv.1 hs
      rcases script with _ | ⟨operation, rest⟩
      · rw [free_eq, close_stream_nil pulse hc hs] at hret
        cases hret
      · refine ⟨(tsmf_pulse_wait_for_operation pulse operation rest).trace, ?_, ?_⟩
        · exact TraceSat_wait_for_operation pulse operation (fun c => isDrainWait c = true)
            rfl rfl rfl rest
        · rw [free_eq, close_stream_eq pulse hc hs] at hret ⊢
          cases hw : (tsmf_pulse_wait_for_operation pulse operation rest).ret with
          | none =>
            rw [hw] at hret
            cases hret
          | some u =>
            simp [teardownOrder, hs]
  · intro hs
    rw [free_eq, close_stream_nothing pulse (Or.inr hs)]
  · intro operation state k rest hstate hscript
    subst hscript
    by_cases hs : pulse.stream = 0
    · rw [free_eq, close_stream_nothing pulse (Or.inr hs)]
    · rw [free_eq, close_stream_eq pulse (hinv.1 hs) hs,
        wait_for_operation_returns pulse operation state hstate rest k]

/-- C9, witness: the device reached by a first `open` with a name of four
chars and a `set_format` that creates stream 3; the drain operation 7 is
reported running once, then done. -/
theorem tsmf_pulse_free_teardown_witness :
    ReachableOpenOnce namedDevice ∧
    (∀ c ∈ (tsmf_pulse_free namedDevice [7, PA_OPERATION_RUNNING, PA_OPERATION_DONE]).trace,
      passesNull c = false) ∧
    ((tsmf_pulse_free namedDevice [7, PA_OPERATION_RUNNING, PA_OPERATION_DONE]).ret =
        some () →
      ∃ ws : List Call, (∀ c ∈ ws, isDrainWait c = true) ∧
        (tsmf_pulse_free namedDevice [7, PA_OPERATION_RUNNING, PA_OPERATION_DONE]).trace =
          teardownOrder namedDevice ws) ∧
    (tsmf_pulse_free namedDevice [7, PA_OPERATION_RUNNING, PA_OPERATION_DONE]).ret =
      some () :=
  have h1 : ReachableOpenOnce { connectedDevice with device := shortName } :=
    ReachableOpenOnce.opened TSMFAudioDeviceEntry { connectedDevice with device := shortName }
      (some shortName) longNameOverflow [1, 2, 0, 0, PA_CONTEXT_READY] false
      ReachableOpenOnce.entry (by decide)
      (fun name h => by
        cases h
        decide)
      (by decide)
  have h2 : ReachableOpenOnce namedDevice :=
    ReachableOpenOnce.formatted { connectedDevice with device := shortName } namedDevice
      44100 2 16 [3, 0, PA_STREAM_READY] true h1 (by decide)
  ⟨h2,
    (tsmf_pulse_free_teardown namedDevice h2 [7, PA_OPERATION_RUNNING, PA_OPERATION_DONE]).1,
    (tsmf_pulse_free_teardown namedDevice h2 [7, PA_OPERATION_RUNNING, PA_OPERATION_DONE]).2.1,
    (tsmf_pulse_free_teardown namedDevice h2
      [7, PA_OPERATION_RUNNING, PA_OPERATION_DONE]).2.2.2 7 PA_OPERATION_DONE 1 []
      (by decide) (by decide)⟩

end TsmfPulse
